import Mathlib

/-!
# Verification of the flow-metrics tag encoding core

A shallow embedding of `server/libs/flow-metrics/tag.go`: the `Code` bitmask,
the `Field`/`Tag` data model, the text encoder `MarshalTo`, the schema
generator `GenTagColumns`, the table lookup functions, the sentinel-ID and
pipe-delimited list codecs, the observation-point token table, and the
clone operations.

Conventions of the embedding:
* Go unsigned integers are `Nat`; the signed `L3EpcID` fields are `Int`.
* Go's `uint64` `Code` is a `Nat`; single-flag constants are `1 <<< n`.
* Go byte buffers (`net.IP`) are `List Nat`; a nil slice is `none`.
* Writing into a caller-supplied byte buffer (`copy`) is modelled by
  `goCopy` on `List Char`, which reproduces Go's truncating semantics.
* Functions that can panic in Go (slice indexing) return `Option`;
  `none` models the panic.
* Recursions are fuel-based or structural so that every definition
  evaluates inside the kernel (`decide`/`rfl`).
-/

namespace FlowMetrics

/-! ## Decimal and hexadecimal rendering (strconv.FormatUint / FormatInt)

`natToDecAux` mirrors the usual most-significant-first decimal printer;
the fuel argument only serves termination and is always sufficient
(`n + 1` calls for value `n`). -/

/-- The character of the decimal digit `n` (for `n < 10`). -/
def digitChar (n : Nat) : Char := Char.ofNat (48 + n)

/-- The character of the hexadecimal digit `n` (for `n < 16`), lowercase. -/
def hexDigitChar (n : Nat) : Char :=
  if n < 10 then Char.ofNat (48 + n) else Char.ofNat (87 + n)

/-- Fuel-based digit accumulator for base-10 printing. -/
def natToDecAux : Nat → Nat → List Char → List Char
  | 0, _, acc => acc
  | fuel + 1, n, acc =>
    if n < 10 then digitChar n :: acc
    else natToDecAux fuel (n / 10) (digitChar (n % 10) :: acc)

/-- `strconv.FormatUint(n, 10)` as a character list. -/
def natToDec (n : Nat) : List Char := natToDecAux (n + 1) n []

/-- Fuel-based digit accumulator for base-16 printing. -/
def natToHexAux : Nat → Nat → List Char → List Char
  | 0, _, acc => acc
  | fuel + 1, n, acc =>
    if n < 16 then hexDigitChar n :: acc
    else natToHexAux fuel (n / 16) (hexDigitChar (n % 16) :: acc)

/-- `strconv.FormatUint(n, 16)` as a character list. -/
def natToHex (n : Nat) : List Char := natToHexAux (n + 1) n []

/-- `strconv.FormatInt(i, 10)` as a character list. -/
def intToDec (i : Int) : List Char :=
  if i < 0 then '-' :: natToDec i.natAbs else natToDec i.toNat

/-- `strconv.FormatUint(n, 10)` as a `String`. -/
def decU (n : Nat) : String := String.mk (natToDec n)

/-- `strconv.FormatInt(i, 10)` as a `String`. -/
def decI (i : Int) : String := String.mk (intToDec i)

/-! ## Decimal parsing (strconv.ParseInt with base 10, bitSize 64) -/

/-- Is `c` an ASCII decimal digit? -/
def isDigitCh (c : Char) : Bool := 48 ≤ c.toNat && c.toNat ≤ 57

/-- Numeric value of a digit character. -/
def digitVal (c : Char) : Nat := c.toNat - 48

/-- Fold a run of digit characters into a number, most significant first. -/
def parseDigits (cs : List Char) (acc : Nat) : Nat :=
  cs.foldl (fun a c => a * 10 + digitVal c) acc

/-- List-level body of `strconv.ParseInt(s, 10, 64)`: an optional sign
followed by a nonempty run of decimal digits, within the signed 64-bit
range; `none` is the error return. -/
def goParseInt64L : List Char → Option Int
  | [] => none
  | c :: cs =>
    let ds : List Char := if c = '-' ∨ c = '+' then cs else c :: cs
    if ds = [] then none
    else if ds.all isDigitCh then
      let v : Nat := parseDigits ds 0
      if c = '-' then
        if v ≤ 2 ^ 63 then some (-(v : Int)) else none
      else
        if v < 2 ^ 63 then some (v : Int) else none
    else none

/-- `strconv.ParseInt(s, 10, 64)` on a `String`. -/
def goParseInt64 (s : String) : Option Int := goParseInt64L s.data

/-! ### Correctness of the decimal printer against the parser -/

theorem natToDecAux_append (fuel n : Nat) (acc : List Char) (h : n < fuel) :
    natToDecAux fuel n acc = natToDecAux fuel n [] ++ acc := by
  induction fuel generalizing n acc with
  | zero => omega
  | succ fuel ih =>
    rw [natToDecAux, natToDecAux]
    by_cases h10 : n < 10
    · rw [if_pos h10, if_pos h10]; rfl
    · rw [if_neg h10, if_neg h10, ih (n / 10) _ (by omega),
        ih (n / 10) [digitChar (n % 10)] (by omega), List.append_assoc]
      rfl

theorem natToDecAux_fuel (fuel fuel' n : Nat) (h : n < fuel) (h' : n < fuel') :
    natToDecAux fuel n [] = natToDecAux fuel' n [] := by
  induction fuel generalizing fuel' n with
  | zero => omega
  | succ fuel ih =>
    cases fuel' with
    | zero => omega
    | succ fuel' =>
      rw [natToDecAux, natToDecAux]
      by_cases h10 : n < 10
      · rw [if_pos h10, if_pos h10]
      · rw [if_neg h10, if_neg h10,
          natToDecAux_append fuel (n / 10) _ (by omega),
          natToDecAux_append fuel' (n / 10) _ (by omega),
          ih fuel' (n / 10) (by omega) (by omega)]

theorem natToDec_ge (n : Nat) (h : ¬ n < 10) :
    natToDec n = natToDec (n / 10) ++ [digitChar (n % 10)] := by
  rw [natToDec, natToDecAux, if_neg h,
    natToDecAux_append n (n / 10) _ (by omega), natToDec,
    natToDecAux_fuel n (n / 10 + 1) (n / 10) (by omega) (by omega)]

theorem digitChar_isDigit {m : Nat} (hm : m < 10) : isDigitCh (digitChar m) = true := by
  interval_cases m <;> decide

theorem digitVal_digitChar {m : Nat} (hm : m < 10) : digitVal (digitChar m) = m := by
  interval_cases m <;> decide

theorem natToDec_all_digits (n : Nat) : (natToDec n).all isDigitCh = true := by
  induction n using Nat.strong_induction_on with
  | _ n ih =>
    by_cases h10 : n < 10
    · rw [natToDec, natToDecAux, if_pos h10]
      simp [digitChar_isDigit h10]
    · rw [natToDec_ge n h10, List.all_append]
      have h1 := ih (n / 10) (by omega)
      have h2 : isDigitCh (digitChar (n % 10)) = true :=
        digitChar_isDigit (Nat.mod_lt _ (by omega))
      simp [h1, h2]

theorem natToDec_ne_nil (n : Nat) : natToDec n ≠ [] := by
  by_cases h10 : n < 10
  · rw [natToDec, natToDecAux, if_pos h10]; simp
  · rw [natToDec_ge n h10]; simp

theorem parseDigits_append (l1 l2 : List Char) (a : Nat) :
    parseDigits (l1 ++ l2) a = parseDigits l2 (parseDigits l1 a) := by
  simp [parseDigits, List.foldl_append]

theorem parseDigits_natToDec (n : Nat) : ∀ a, parseDigits (natToDec n) a =
    a * 10 ^ (natToDec n).length + n := by
  induction n using Nat.strong_induction_on with
  | _ n ih =>
    intro a
    by_cases h10 : n < 10
    · rw [natToDec, natToDecAux, if_pos h10]
      simp [parseDigits, digitVal_digitChar h10]
    · rw [natToDec_ge n h10, parseDigits_append, ih _ (by omega), List.length_append]
      simp only [parseDigits, List.foldl_cons, List.foldl_nil,
        digitVal_digitChar (Nat.mod_lt n (by omega)), List.length_cons,
        List.length_nil, Nat.zero_add, pow_succ]
      generalize (10 : Nat) ^ (natToDec (n / 10)).length = P
      have hkey : (a * P + n / 10) * 10 + n % 10
          = a * (P * 10) + (n / 10 * 10 + n % 10) := by ring
      rw [hkey]
      congr 1
      omega

theorem parseDigits_natToDec_zero (n : Nat) : parseDigits (natToDec n) 0 = n := by
  rw [parseDigits_natToDec]; simp

/-- The head of a decimal rendering is never a sign character. -/
theorem natToDec_head_digit (n : Nat) :
    ∀ c, (natToDec n).head? = some c → isDigitCh c = true := by
  intro c hc
  have hall := natToDec_all_digits n
  cases h : natToDec n with
  | nil => rw [h] at hc; simp at hc
  | cons d ds =>
    rw [h] at hc hall
    simp only [List.head?_cons, Option.some.injEq] at hc
    subst hc
    simp only [List.all_cons] at hall
    exact (Bool.and_eq_true_iff.mp hall).1

/-- Parsing an unsigned digit run through `goParseInt64L`. -/
theorem goParseInt64L_digits (c : Char) (cs : List Char)
    (hsign : ¬ (c = '-' ∨ c = '+')) (hall : (c :: cs).all isDigitCh = true)
    (h : parseDigits (c :: cs) 0 < 2 ^ 63) :
    goParseInt64L (c :: cs) = some ((parseDigits (c :: cs) 0 : Nat) : Int) := by
  rw [goParseInt64L]
  simp only [if_neg hsign, if_neg (List.cons_ne_nil c cs), hall, if_true,
    if_neg (fun hcc => hsign (Or.inl hcc)), if_pos h]

/-- Parsing a minus sign followed by a digit run through `goParseInt64L`. -/
theorem goParseInt64L_neg (ds : List Char) (hne : ds ≠ [])
    (hall : ds.all isDigitCh = true) (h : parseDigits ds 0 ≤ 2 ^ 63) :
    goParseInt64L ('-' :: ds) = some (-(parseDigits ds 0 : Int)) := by
  rw [goParseInt64L]
  rw [if_pos (show ('-' : Char) = '-' ∨ ('-' : Char) = '+' from Or.inl rfl)]
  rw [if_neg hne, hall, if_pos rfl, if_pos (rfl : ('-' : Char) = '-'), if_pos h]

/-- Parsing the decimal rendering of `n < 2^63` recovers `n`. -/
theorem goParseInt64_natToDec (n : Nat) (h : n < 2 ^ 63) :
    goParseInt64 (String.mk (natToDec n)) = some (n : Int) := by
  cases hd : natToDec n with
  | nil => exact absurd hd (natToDec_ne_nil n)
  | cons c cs =>
    have hcdig : isDigitCh c = true := natToDec_head_digit n c (by rw [hd]; rfl)
    have hsign : ¬ (c = '-' ∨ c = '+') := by
      rintro (rfl | rfl) <;> simp [isDigitCh] at hcdig
    have hall : (c :: cs).all isDigitCh = true := by
      rw [← hd]; exact natToDec_all_digits n
    have hval : parseDigits (c :: cs) 0 = n := by
      rw [← hd]; exact parseDigits_natToDec_zero n
    show goParseInt64L (c :: cs) = some (n : Int)
    rw [goParseInt64L_digits c cs hsign hall (by rw [hval]; exact h), hval]

/-- Parsing the rendering of a negative integer `-m` (with `m ≤ 2^63`)
recovers it. -/
theorem goParseInt64_negDec (m : Nat) (h : m ≤ 2 ^ 63) :
    goParseInt64 (String.mk ('-' :: natToDec m)) = some (-(m : Int)) := by
  show goParseInt64L ('-' :: natToDec m) = some (-(m : Int))
  rw [goParseInt64L_neg (natToDec m) (natToDec_ne_nil m) (natToDec_all_digits m)
      (by rw [parseDigits_natToDec_zero]; exact h), parseDigits_natToDec_zero]

/-! ## The Code bitmask (tag.go, the three iota blocks)

`Code` is Go `uint64`; each constant is a single bit.  The first block
occupies bits 0-15, the path block bits 20-35, the extended block bits
40-52, and `TunnelIPID` bit 62. -/

abbrev Code := Nat

def IP : Code := 1 <<< 0
def L3EpcID : Code := 1 <<< 1
def L3Device : Code := 1 <<< 2
def SubnetID : Code := 1 <<< 3
def RegionID : Code := 1 <<< 4
def PodNodeID : Code := 1 <<< 5
def HostID : Code := 1 <<< 6
def AZID : Code := 1 <<< 7
def PodGroupID : Code := 1 <<< 8
def PodNSID : Code := 1 <<< 9
def PodID : Code := 1 <<< 10
def MAC : Code := 1 <<< 11
def PodClusterID : Code := 1 <<< 12
def ServiceID : Code := 1 <<< 13
def Resource : Code := 1 <<< 14
def GPID : Code := 1 <<< 15

def IPPath : Code := 1 <<< 20
def L3EpcIDPath : Code := 1 <<< 21
def L3DevicePath : Code := 1 <<< 22
def SubnetIDPath : Code := 1 <<< 23
def RegionIDPath : Code := 1 <<< 24
def PodNodeIDPath : Code := 1 <<< 25
def HostIDPath : Code := 1 <<< 26
def AZIDPath : Code := 1 <<< 27
def PodGroupIDPath : Code := 1 <<< 28
def PodNSIDPath : Code := 1 <<< 29
def PodIDPath : Code := 1 <<< 30
def MACPath : Code := 1 <<< 31
def PodClusterIDPath : Code := 1 <<< 32
def ServiceIDPath : Code := 1 <<< 33
def ResourcePath : Code := 1 <<< 34
def GPIDPath : Code := 1 <<< 35

def Direction : Code := 1 <<< 40
def ACLGID : Code := 1 <<< 41
def Protocol : Code := 1 <<< 42
def ServerPort : Code := 1 <<< 43
def TAPType : Code := 1 <<< 45
def VTAPID : Code := 1 <<< 47
def TAPSide : Code := 1 <<< 48
def TAPPort : Code := 1 <<< 49
def IsKeyService : Code := 1 <<< 50
def L7Protocol : Code := 1 <<< 51
def SignalSource : Code := 1 <<< 52

def TunnelIPID : Code := 1 <<< 62

/-- `Code.HasEdgeTagField`: any bit in the path range 20-39. -/
def hasEdgeTagField (c : Code) : Bool := c &&& 0xfffff00000 != 0

/-- Role constants (ROLE_CLIENT .. ROLE_REST). -/
def ROLE_CLIENT : Nat := 0
def ROLE_SERVER : Nat := 1
def ROLE_LOCAL : Nat := 2
def ROLE_REST : Nat := 3

/-- TAPSideEnum values (Client = 1, Server = 2, Local = 4, plus the
side-type values `(i + 1) <<< 3` or-ed in). -/
def TS_Rest : Nat := 0
def TS_Client : Nat := 1
def TS_Server : Nat := 2
def TS_Local : Nat := 4
def TS_ClientNode : Nat := 9
def TS_ServerNode : Nat := 10
def TS_ClientHypervisor : Nat := 17
def TS_ServerHypervisor : Nat := 18
def TS_ClientGatewayHypervisor : Nat := 25
def TS_ServerGatewayHypervisor : Nat := 26
def TS_ClientGateway : Nat := 33
def TS_ServerGateway : Nat := 34
def TS_ClientProcess : Nat := 41
def TS_ServerProcess : Nat := 42
def TS_ClientApp : Nat := 49
def TS_ServerApp : Nat := 50
def TS_App : Nat := 48

/-! ## The Field / Tag data model

`FieldG` is the Go `Field` struct, generic in the representation `β` of
the two variable-length IPv6 byte buffers (`IP6`, `IP61`): the encoder
uses `β = List Nat` (the bytes themselves), the clone model uses
`β = Nat` (a location in an explicit heap, to express Go slice
aliasing).  A Go nil slice is `none`.  Unsigned Go integers are `Nat`,
the signed `L3EpcID`/`L3EpcID1` are `Int`.  Field names and order follow
the Go struct. -/

structure FieldG (β : Type) where
  GlobalThreadID : Nat := 0
  IP6 : Option β := none
  MAC : Nat := 0
  IP : Nat := 0
  L3EpcID : Int := 0
  L3DeviceID : Nat := 0
  L3DeviceType : Nat := 0
  RegionID : Nat := 0
  SubnetID : Nat := 0
  HostID : Nat := 0
  PodNodeID : Nat := 0
  AZID : Nat := 0
  PodGroupID : Nat := 0
  PodNSID : Nat := 0
  PodID : Nat := 0
  PodClusterID : Nat := 0
  ServiceID : Nat := 0
  AutoInstanceID : Nat := 0
  AutoInstanceType : Nat := 0
  AutoServiceID : Nat := 0
  AutoServiceType : Nat := 0
  GPID : Nat := 0
  MAC1 : Nat := 0
  IP61 : Option β := none
  IP1 : Nat := 0
  L3EpcID1 : Int := 0
  L3DeviceID1 : Nat := 0
  L3DeviceType1 : Nat := 0
  RegionID1 : Nat := 0
  SubnetID1 : Nat := 0
  HostID1 : Nat := 0
  PodNodeID1 : Nat := 0
  AZID1 : Nat := 0
  PodGroupID1 : Nat := 0
  PodNSID1 : Nat := 0
  PodID1 : Nat := 0
  PodClusterID1 : Nat := 0
  ServiceID1 : Nat := 0
  AutoInstanceID1 : Nat := 0
  AutoInstanceType1 : Nat := 0
  AutoServiceID1 : Nat := 0
  AutoServiceType1 : Nat := 0
  GPID1 : Nat := 0
  ACLGID : Nat := 0
  Role : Nat := 0
  Protocol : Nat := 0
  ServerPort : Nat := 0
  VTAPID : Nat := 0
  OrgId : Nat := 0
  TeamID : Nat := 0
  TAPPort : Nat := 0
  TapPort : Nat := 0
  TapPortType : Nat := 0
  NatSource : Nat := 0
  TunnelType : Nat := 0
  TAPSide : Nat := 0
  TAPSideStr : String := ""
  TAPType : Nat := 0
  IsIPv4 : Nat := 0
  IsKeyService : Nat := 0
  L7Protocol : Nat := 0
  AppService : String := ""
  AppInstance : String := ""
  Endpoint : String := ""
  BizType : Nat := 0
  SignalSource : Nat := 0
  TagSource : Nat := 0
  TagSource1 : Nat := 0
  TunnelIPID : Nat := 0
  deriving Repr, DecidableEq

/-- The `Field` used by the text encoder: IPv6 buffers carried by value. -/
abbrev Field := FieldG (List Nat)

/-- The Go `Tag`: an embedded `Field`, a `Code`, and the opaque `id`. -/
structure Tag where
  field : Field
  code : Code := 0
  id : String := ""
  deriving Repr, DecidableEq

/-! ## IP address rendering

`utils.IpFromUint32` and `net.IP.String` are code of this repository and
of the Go standard library that is not under `src/`.

Modelled from the spec: an IPv4 value is emitted as "the v4 dotted form
(derived from the big-endian 32-bit value)"; `ipv4String` renders the
four big-endian bytes as dotted decimal.  The spec fixes the worked
example 0xC0000201 = "192.0.2.1". -/
def ipv4String (n : Nat) : String :=
  String.mk (natToDec (n / 2 ^ 24 % 256) ++ '.' :: natToDec (n / 2 ^ 16 % 256)
    ++ '.' :: natToDec (n / 2 ^ 8 % 256) ++ '.' :: natToDec (n % 256))

/-- Modelled from the spec: an IPv6 value is emitted as "the v6 textual
form" (`net.IP.String`).  No claim depends on the exact text; this
rendering (plain colon-separated lowercase hex groups, `<nil>` for a nil
slice, mirroring `net.IP.String` on a nil value) is a fixed injective
stand-in used only so the encoder is total and deterministic. -/
def ip6String : Option (List Nat) → String
  | none => String.mk ('<' :: 'n' :: 'i' :: 'l' :: '>' :: [])
  | some bs =>
    String.mk (String.intercalate ":"
      ((List.range 8).map (fun i =>
        String.mk (natToHex (bs.getD (2 * i) 0 * 256 + bs.getD (2 * i + 1) 0))))).data

/-! ## putTAPPort (tag.go): 8 lowercase hex characters, zero padded on
the left, truncated to the low 8 characters when longer. -/
def TAP_PORT_STR_LEN : Nat := 8

/-- The 8 characters `putTAPPort` leaves in the buffer (the function
always writes and returns exactly `TAP_PORT_STR_LEN` characters). -/
def putTAPPortStr (tapPort : Nat) : List Char :=
  let s := natToHex tapPort
  if TAP_PORT_STR_LEN ≥ s.length then
    List.replicate (TAP_PORT_STR_LEN - s.length) '0' ++ s
  else
    s.drop (s.length - TAP_PORT_STR_LEN)

/-! ## The text encoder MarshalTo

`MarshalTo` writes a chain of `,key=value` segments into the caller's
buffer, each group guarded by one `t.Code & bit != 0` test, in the exact
source order.  The embedding splits it into (1) `marshalSegments`, the
ordered segment list, a literal transcription of the if-chain, and
(2) `emitSegs`, which writes the segments into the buffer with Go `copy`
semantics and accumulates the returned offset, as the Go body does. -/

/-- One `,key=value` segment. -/
abbrev Seg := String × String

/-! Each `segs<Flag>` function transcribes one `if` block of the
`MarshalTo` body (kept as separate definitions; `marshalSegments`
flattens them in source order, reproducing the sequential appends the
Go code performs). -/

def segsTid (t : Tag) : List Seg :=
  (if t.field.GlobalThreadID ≠ 0 then [("_tid", decU t.field.GlobalThreadID)] else [])

def segsACLGID (t : Tag) : List Seg :=
  (if t.code &&& ACLGID ≠ 0 then [("acl_gid", decU t.field.ACLGID)] else [])

def segsAZID (t : Tag) : List Seg :=
  (if t.code &&& AZID ≠ 0 then [("az_id", decU t.field.AZID)] else [])

def segsAZIDPath (t : Tag) : List Seg :=
  (if t.code &&& AZIDPath ≠ 0 then
          [("az_id_0", decU t.field.AZID), ("az_id_1", decU t.field.AZID1)] else [])

def segsDirection (t : Tag) : List Seg :=
  (if t.code &&& Direction ≠ 0 then
          [("role", if t.field.Role = ROLE_CLIENT then "c2s"
            else if t.field.Role = ROLE_SERVER then "s2c"
            else if t.field.Role = ROLE_LOCAL then "local"
            else "rest")] else [])

def segsGPID (t : Tag) : List Seg :=
  (if t.code &&& GPID ≠ 0 then [("gprocess_id", decU t.field.GPID)] else [])

def segsGPIDPath (t : Tag) : List Seg :=
  (if t.code &&& GPIDPath ≠ 0 then
          [("gprocess_id_0", decU t.field.GPID), ("gprocess_id_1", decU t.field.GPID1)] else [])

def segsHostID (t : Tag) : List Seg :=
  (if t.code &&& HostID ≠ 0 then [("host_id", decU t.field.HostID)] else [])

def segsHostIDPath (t : Tag) : List Seg :=
  (if t.code &&& HostIDPath ≠ 0 then
          [("host_id_0", decU t.field.HostID), ("host_id_1", decU t.field.HostID1)] else [])

def segsIP (t : Tag) : List Seg :=
  (if t.code &&& IP ≠ 0 then
          (if t.field.IsIPv4 = 0 then
            [("ip", ip6String t.field.IP6), ("ip_version", "6")]
          else
            [("ip", ipv4String t.field.IP), ("ip_version", "4")]) else [])

def segsIPPath (t : Tag) : List Seg :=
  (if t.code &&& IPPath ≠ 0 then
          (if t.field.IsIPv4 = 0 then
            [("ip_0", ip6String t.field.IP6), ("ip_1", ip6String t.field.IP61),
              ("is_version", "6")]
          else
            [("ip_0", ipv4String t.field.IP), ("ip_1", ipv4String t.field.IP1),
              ("ip_version", "4")]) else [])

def segsIsKeyService (t : Tag) : List Seg :=
  (if t.code &&& IsKeyService ≠ 0 then
          [("is_key_service", if t.field.IsKeyService = 1 then "1" else "0")] else [])

def segsL3Device (t : Tag) : List Seg :=
  (if t.code &&& L3Device ≠ 0 then
          [("l3_device_id", decU t.field.L3DeviceID),
            ("l3_device_type", decU t.field.L3DeviceType)] else [])

def segsL3DevicePath (t : Tag) : List Seg :=
  (if t.code &&& L3DevicePath ≠ 0 then
          [("l3_device_id_0", decU t.field.L3DeviceID),
            ("l3_device_id_1", decU t.field.L3DeviceID1),
            ("l3_device_type_0", decU t.field.L3DeviceType),
            ("l3_device_type_1", decU t.field.L3DeviceType1)] else [])

def segsL3EpcID (t : Tag) : List Seg :=
  (if t.code &&& L3EpcID ≠ 0 then [("l3_epc_id", decI t.field.L3EpcID)] else [])

def segsL3EpcIDPath (t : Tag) : List Seg :=
  (if t.code &&& L3EpcIDPath ≠ 0 then
          [("l3_epc_id_0", decI t.field.L3EpcID),
            ("l3_epc_id_1", decI t.field.L3EpcID1)] else [])

def segsL7Protocol (t : Tag) : List Seg :=
  (if t.code &&& L7Protocol ≠ 0 then
          [("l7_protocol", decU t.field.L7Protocol),
            ("app_service", t.field.AppService),
            ("app_instance", t.field.AppInstance),
            ("endpoint", t.field.Endpoint),
            ("biz_type", decU t.field.BizType)] else [])

def segsMAC (t : Tag) : List Seg :=
  (if t.code &&& MAC ≠ 0 then [] else [])

def segsMACPath (t : Tag) : List Seg :=
  (if t.code &&& MACPath ≠ 0 then [] else [])

def segsPodClusterID (t : Tag) : List Seg :=
  (if t.code &&& PodClusterID ≠ 0 then
          [("pod_cluster_id", decU t.field.PodClusterID)] else [])

def segsPodClusterIDPath (t : Tag) : List Seg :=
  (if t.code &&& PodClusterIDPath ≠ 0 then
          [("pod_cluster_id_0", decU t.field.PodClusterID),
            ("pod_cluster_id_1", decU t.field.PodClusterID1)] else [])

def segsPodGroupID (t : Tag) : List Seg :=
  (if t.code &&& PodGroupID ≠ 0 then
          [("pod_group_id", decU t.field.PodGroupID)] else [])

def segsPodGroupIDPath (t : Tag) : List Seg :=
  (if t.code &&& PodGroupIDPath ≠ 0 then
          [("pod_group_id_0", decU t.field.PodGroupID),
            ("pod_group_id_1", decU t.field.PodGroupID1)] else [])

def segsPodID (t : Tag) : List Seg :=
  (if t.code &&& PodID ≠ 0 then [("pod_id", decU t.field.PodID)] else [])

def segsPodIDPath (t : Tag) : List Seg :=
  (if t.code &&& PodIDPath ≠ 0 then
          [("pod_id_0", decU t.field.PodID), ("pod_id_1", decU t.field.PodID1)] else [])

def segsPodNodeID (t : Tag) : List Seg :=
  (if t.code &&& PodNodeID ≠ 0 then [("pod_node_id", decU t.field.PodNodeID)] else [])

def segsPodNodeIDPath (t : Tag) : List Seg :=
  (if t.code &&& PodNodeIDPath ≠ 0 then
          [("pod_node_id_0", decU t.field.PodNodeID),
            ("pod_node_id_1", decU t.field.PodNodeID1)] else [])

def segsPodNSID (t : Tag) : List Seg :=
  (if t.code &&& PodNSID ≠ 0 then [("pod_ns_id", decU t.field.PodNSID)] else [])

def segsPodNSIDPath (t : Tag) : List Seg :=
  (if t.code &&& PodNSIDPath ≠ 0 then
          [("pod_ns_id_0", decU t.field.PodNSID),
            ("pod_ns_id_1", decU t.field.PodNSID1)] else [])

def segsProtocol (t : Tag) : List Seg :=
  (if t.code &&& Protocol ≠ 0 then [("protocol", decU t.field.Protocol)] else [])

def segsRegionID (t : Tag) : List Seg :=
  (if t.code &&& RegionID ≠ 0 then [("region_id", decU t.field.RegionID)] else [])

def segsRegionIDPath (t : Tag) : List Seg :=
  (if t.code &&& RegionIDPath ≠ 0 then
          [("region_id_0", decU t.field.RegionID),
            ("region_id_1", decU t.field.RegionID1)] else [])

def segsResource (t : Tag) : List Seg :=
  (if t.code &&& Resource ≠ 0 then
          [("auto_instance_id", decU t.field.AutoInstanceID),
            ("auto_instance_type", decU t.field.AutoInstanceType),
            ("auto_service_id", decU t.field.AutoServiceID),
            ("auto_service_type", decU t.field.AutoServiceType)] else [])

def segsResourcePath (t : Tag) : List Seg :=
  (if t.code &&& ResourcePath ≠ 0 then
          [("auto_instance_id_0", decU t.field.AutoInstanceID),
            ("auto_instance_type_0", decU t.field.AutoInstanceType),
            ("auto_service_id_0", decU t.field.AutoServiceID),
            ("auto_service_type_0", decU t.field.AutoServiceType),
            ("auto_instance_id_1", decU t.field.AutoInstanceID1),
            ("auto_instance_type_1", decU t.field.AutoInstanceType1),
            ("auto_service_id_1", decU t.field.AutoServiceID1),
            ("auto_service_type_1", decU t.field.AutoServiceType1)] else [])

def segsSignalSource (t : Tag) : List Seg :=
  (if t.code &&& SignalSource ≠ 0 then
          [("signal_source", decU t.field.SignalSource)] else [])

def segsServerPort (t : Tag) : List Seg :=
  (if t.code &&& ServerPort ≠ 0 then [("server_port", decU t.field.ServerPort)] else [])

def segsServiceID (t : Tag) : List Seg :=
  (if t.code &&& ServiceID ≠ 0 then [("service_id", decU t.field.ServiceID)] else [])

def segsServiceIDPath (t : Tag) : List Seg :=
  (if t.code &&& ServiceIDPath ≠ 0 then
          [("service_id_0", decU t.field.ServiceID),
            ("service_id_1", decU t.field.ServiceID1)] else [])

def segsSubnetID (t : Tag) : List Seg :=
  (if t.code &&& SubnetID ≠ 0 then [("subnet_id", decU t.field.SubnetID)] else [])

def segsSubnetIDPath (t : Tag) : List Seg :=
  (if t.code &&& SubnetIDPath ≠ 0 then
          [("subnet_id_0", decU t.field.SubnetID),
            ("subnet_id_1", decU t.field.SubnetID1)] else [])

def segsTunnelIPID (t : Tag) : List Seg :=
  (if t.code &&& TunnelIPID ≠ 0 then
          [("tunnel_ip_id", decU t.field.TunnelIPID)] else [])

def segsTAPPort (t : Tag) : List Seg :=
  (if t.code &&& TAPPort ≠ 0 then
          [("capture_nic", String.mk (putTAPPortStr t.field.TAPPort))] else [])

def segsTAPSide (t : Tag) : List Seg :=
  (if t.code &&& TAPSide ≠ 0 then
          (if t.field.TAPSide = TS_Rest then [("observation_point", "rest")]
          else if t.field.TAPSide = TS_Client then [("observation_point", "c")]
          else if t.field.TAPSide = TS_Server then [("observation_point", "s")]
          else if t.field.TAPSide = TS_ClientNode then [("observation_point", "c-nd")]
          else if t.field.TAPSide = TS_ServerNode then [("observation_point", "s-nd")]
          else if t.field.TAPSide = TS_ClientHypervisor then [("observation_point", "c-hv")]
          else if t.field.TAPSide = TS_ServerHypervisor then [("observation_point", "s-hv")]
          else if t.field.TAPSide = TS_ClientGatewayHypervisor then
            [("observation_point", "c-gw-hv")]
          else if t.field.TAPSide = TS_ServerGatewayHypervisor then
            [("observation_point", "s-gw-hv")]
          else if t.field.TAPSide = TS_ClientGateway then [("observation_point", "c-gw")]
          else if t.field.TAPSide = TS_ServerGateway then [("observation_point", "s-gw")]
          else []) else [])

def segsTAPType (t : Tag) : List Seg :=
  (if t.code &&& TAPType ≠ 0 then
          [("capture_network_type_id", decU t.field.TAPType)] else [])

def segsVTAPID (t : Tag) : List Seg :=
  (if t.code &&& VTAPID ≠ 0 then
          [("agent_id", decU t.field.VTAPID), ("team_id", decU t.field.TeamID)] else [])

/-- The ordered `key=value` segments `MarshalTo` emits for tag `t`,
in source order. -/
def marshalSegments (t : Tag) : List Seg := List.flatten [
    segsTid t, segsACLGID t, segsAZID t, segsAZIDPath t,
    segsDirection t, segsGPID t, segsGPIDPath t, segsHostID t,
    segsHostIDPath t, segsIP t, segsIPPath t, segsIsKeyService t,
    segsL3Device t, segsL3DevicePath t, segsL3EpcID t, segsL3EpcIDPath t,
    segsL7Protocol t, segsMAC t, segsMACPath t, segsPodClusterID t,
    segsPodClusterIDPath t, segsPodGroupID t, segsPodGroupIDPath t, segsPodID t,
    segsPodIDPath t, segsPodNodeID t, segsPodNodeIDPath t, segsPodNSID t,
    segsPodNSIDPath t, segsProtocol t, segsRegionID t, segsRegionIDPath t,
    segsResource t, segsResourcePath t, segsSignalSource t, segsServerPort t,
    segsServiceID t, segsServiceIDPath t, segsSubnetID t, segsSubnetIDPath t,
    segsTunnelIPID t, segsTAPPort t, segsTAPSide t, segsTAPType t,
    segsVTAPID t]

/-- The characters of one segment: `,key=value`. -/
def segChars (s : Seg) : List Char := ',' :: s.1.data ++ '=' :: s.2.data

/-- All characters the encoder writes. -/
def segsChars (segs : List Seg) : List Char := (segs.map segChars).flatten

/-- The characters `MarshalTo` writes for tag `t`. -/
def marshalChars (t : Tag) : List Char := segsChars (marshalSegments t)

/-- The key names of the emitted segments, in emission order. -/
def segKeys (t : Tag) : List String := (marshalSegments t).map Prod.fst

/-! ### The buffer write (Go `copy` semantics) -/

/-- Go `copy(b[off:], s)`: writes `min (len s) (len b - off)` characters
at `off` and returns that count. -/
def goCopy (b : List Char) (off : Nat) (s : List Char) : List Char × Nat :=
  let k := min s.length (b.length - off)
  (b.take off ++ s.take k ++ b.drop (off + k), k)

/-- Write the segments into the buffer one after the other, accumulating
the offset exactly as the Go body accumulates `offset += copy(...)`. -/
def emitSegs (b : List Char) (off : Nat) : List Seg → List Char × Nat
  | [] => (b, off)
  | s :: segs =>
    let r := goCopy b off (segChars s)
    emitSegs r.1 (off + r.2) segs

/-- `(*Tag).MarshalTo(b)`: the final buffer contents and the returned
byte count. -/
def MarshalTo (t : Tag) (b : List Char) : List Char × Nat :=
  emitSegs b 0 (marshalSegments t)

/-! ## The schema generator GenTagColumns

`ckdb.Column` is external to `src/`; the embedding keeps the column
name, the ckdb storage type (as a string), and the group-by flag.  The
`SetComment`/`SetIndex`/`SetCodec` decorations do not change name, type
or order and are omitted.  Each `cols<Flag>` function transcribes one
`if` block of the `GenTagColumns` body; `GenTagColumns` flattens them in
source order. -/

structure Column where
  name : String
  ctype : String
  groupBy : Bool
  deriving Repr, DecidableEq

/-- `ckdb.NewColumnWithGroupBy(name, type)`. -/
def NewColumnWithGroupBy (name ctype : String) : Column := ⟨name, ctype, true⟩

/-- `ckdb.NewColumn(name, type)`. -/
def NewColumn (name ctype : String) : Column := ⟨name, ctype, false⟩

def colsACLGID (code : Code) : List Column :=
  (if code &&& ACLGID ≠ 0 then [NewColumnWithGroupBy "acl_gid" "UInt16"] else [])

def colsAZID (code : Code) : List Column :=
  (if code &&& AZID ≠ 0 then [NewColumnWithGroupBy "az_id" "UInt16"] else [])

def colsAZIDPath (code : Code) : List Column :=
  (if code &&& AZIDPath ≠ 0 then
    [NewColumnWithGroupBy "az_id_0" "UInt16",
      NewColumnWithGroupBy "az_id_1" "UInt16"] else [])

def colsDirection (code : Code) : List Column :=
  (if code &&& Direction ≠ 0 then [NewColumnWithGroupBy "role" "UInt8"] else [])

def colsGPID (code : Code) : List Column :=
  (if code &&& GPID ≠ 0 then [NewColumnWithGroupBy "gprocess_id" "UInt32"] else [])

def colsGPIDPath (code : Code) : List Column :=
  (if code &&& GPIDPath ≠ 0 then
    [NewColumnWithGroupBy "gprocess_id_0" "UInt32",
      NewColumnWithGroupBy "gprocess_id_1" "UInt32"] else [])

def colsHostID (code : Code) : List Column :=
  (if code &&& HostID ≠ 0 then [NewColumnWithGroupBy "host_id" "UInt16"] else [])

def colsHostIDPath (code : Code) : List Column :=
  (if code &&& HostIDPath ≠ 0 then
    [NewColumnWithGroupBy "host_id_0" "UInt16",
      NewColumnWithGroupBy "host_id_1" "UInt16"] else [])

def colsIP (code : Code) : List Column :=
  (if code &&& IP ≠ 0 then
    [NewColumnWithGroupBy "ip4" "IPv4", NewColumnWithGroupBy "ip6" "IPv6",
      NewColumnWithGroupBy "is_ipv4" "UInt8",
      NewColumnWithGroupBy "tag_source" "UInt8"] else [])

def colsIPPath (code : Code) : List Column :=
  (if code &&& IPPath ≠ 0 then
    [NewColumnWithGroupBy "ip4_0" "IPv4", NewColumnWithGroupBy "ip4_1" "IPv4",
      NewColumnWithGroupBy "ip6_0" "IPv6", NewColumnWithGroupBy "ip6_1" "IPv6",
      NewColumnWithGroupBy "is_ipv4" "UInt8",
      NewColumnWithGroupBy "tag_source_0" "UInt8",
      NewColumnWithGroupBy "tag_source_1" "UInt8"] else [])

def colsIsKeyService (code : Code) : List Column :=
  (if code &&& IsKeyService ≠ 0 then
    [NewColumnWithGroupBy "is_key_service" "UInt8"] else [])

def colsL3Device (code : Code) : List Column :=
  (if code &&& L3Device ≠ 0 then
    [NewColumnWithGroupBy "l3_device_id" "UInt32",
      NewColumnWithGroupBy "l3_device_type" "UInt8"] else [])

def colsL3DevicePath (code : Code) : List Column :=
  (if code &&& L3DevicePath ≠ 0 then
    [NewColumnWithGroupBy "l3_device_id_0" "UInt32",
      NewColumnWithGroupBy "l3_device_id_1" "UInt32",
      NewColumnWithGroupBy "l3_device_type_0" "UInt8",
      NewColumnWithGroupBy "l3_device_type_1" "UInt8"] else [])

def colsL3EpcID (code : Code) : List Column :=
  (if code &&& L3EpcID ≠ 0 then [NewColumnWithGroupBy "l3_epc_id" "Int32"] else [])

def colsL3EpcIDPath (code : Code) : List Column :=
  (if code &&& L3EpcIDPath ≠ 0 then
    [NewColumnWithGroupBy "l3_epc_id_0" "Int32",
      NewColumnWithGroupBy "l3_epc_id_1" "Int32"] else [])

def colsL7Protocol (code : Code) : List Column :=
  (if code &&& L7Protocol ≠ 0 then
    [NewColumnWithGroupBy "l7_protocol" "UInt8",
      NewColumnWithGroupBy "app_service" "LowCardinalityString",
      NewColumnWithGroupBy "app_instance" "LowCardinalityString",
      NewColumnWithGroupBy "endpoint" "String",
      NewColumnWithGroupBy "biz_type" "UInt8"] else [])

def colsMAC (code : Code) : List Column :=
  (if code &&& MAC ≠ 0 then [] else [])

def colsMACPath (code : Code) : List Column :=
  (if code &&& MACPath ≠ 0 then [] else [])

def colsPodClusterID (code : Code) : List Column :=
  (if code &&& PodClusterID ≠ 0 then
    [NewColumnWithGroupBy "pod_cluster_id" "UInt16"] else [])

def colsPodClusterIDPath (code : Code) : List Column :=
  (if code &&& PodClusterIDPath ≠ 0 then
    [NewColumnWithGroupBy "pod_cluster_id_0" "UInt16",
      NewColumnWithGroupBy "pod_cluster_id_1" "UInt16"] else [])

def colsPodGroupID (code : Code) : List Column :=
  (if code &&& PodGroupID ≠ 0 then
    [NewColumnWithGroupBy "pod_group_id" "UInt32"] else [])

def colsPodGroupIDPath (code : Code) : List Column :=
  (if code &&& PodGroupIDPath ≠ 0 then
    [NewColumnWithGroupBy "pod_group_id_0" "UInt32",
      NewColumnWithGroupBy "pod_group_id_1" "UInt32"] else [])

def colsPodID (code : Code) : List Column :=
  (if code &&& PodID ≠ 0 then [NewColumnWithGroupBy "pod_id" "UInt32"] else [])

def colsPodIDPath (code : Code) : List Column :=
  (if code &&& PodIDPath ≠ 0 then
    [NewColumnWithGroupBy "pod_id_0" "UInt32",
      NewColumnWithGroupBy "pod_id_1" "UInt32"] else [])

def colsPodNodeID (code : Code) : List Column :=
  (if code &&& PodNodeID ≠ 0 then [NewColumnWithGroupBy "pod_node_id" "UInt32"] else [])

def colsPodNodeIDPath (code : Code) : List Column :=
  (if code &&& PodNodeIDPath ≠ 0 then
    [NewColumnWithGroupBy "pod_node_id_0" "UInt32",
      NewColumnWithGroupBy "pod_node_id_1" "UInt32"] else [])

def colsPodNSID (code : Code) : List Column :=
  (if code &&& PodNSID ≠ 0 then [NewColumnWithGroupBy "pod_ns_id" "UInt16"] else [])

def colsPodNSIDPath (code : Code) : List Column :=
  (if code &&& PodNSIDPath ≠ 0 then
    [NewColumnWithGroupBy "pod_ns_id_0" "UInt16",
      NewColumnWithGroupBy "pod_ns_id_1" "UInt16"] else [])

def colsProtocol (code : Code) : List Column :=
  (if code &&& Protocol ≠ 0 then [NewColumnWithGroupBy "protocol" "UInt8"] else [])

def colsRegionID (code : Code) : List Column :=
  (if code &&& RegionID ≠ 0 then [NewColumnWithGroupBy "region_id" "UInt16"] else [])

def colsRegionIDPath (code : Code) : List Column :=
  (if code &&& RegionIDPath ≠ 0 then
    [NewColumnWithGroupBy "region_id_0" "UInt16",
      NewColumnWithGroupBy "region_id_1" "UInt16"] else [])

def colsResource (code : Code) : List Column :=
  (if code &&& Resource ≠ 0 then
    [NewColumnWithGroupBy "auto_instance_id" "UInt32",
      NewColumnWithGroupBy "auto_instance_type" "UInt8",
      NewColumnWithGroupBy "auto_service_id" "UInt32",
      NewColumnWithGroupBy "auto_service_type" "UInt8"] else [])

def colsResourcePath (code : Code) : List Column :=
  (if code &&& ResourcePath ≠ 0 then
    [NewColumnWithGroupBy "auto_instance_id_0" "UInt32",
      NewColumnWithGroupBy "auto_instance_type_0" "UInt8",
      NewColumnWithGroupBy "auto_service_id_0" "UInt32",
      NewColumnWithGroupBy "auto_service_type_0" "UInt8",
      NewColumnWithGroupBy "auto_instance_id_1" "UInt32",
      NewColumnWithGroupBy "auto_instance_type_1" "UInt8",
      NewColumnWithGroupBy "auto_service_id_1" "UInt32",
      NewColumnWithGroupBy "auto_service_type_1" "UInt8"] else [])

def colsSignalSource (code : Code) : List Column :=
  (if code &&& SignalSource ≠ 0 then
    [NewColumnWithGroupBy "signal_source" "UInt16"] else [])

def colsServiceID (code : Code) : List Column :=
  (if code &&& ServiceID ≠ 0 then [NewColumnWithGroupBy "service_id" "UInt32"] else [])

def colsServiceIDPath (code : Code) : List Column :=
  (if code &&& ServiceIDPath ≠ 0 then
    [NewColumnWithGroupBy "service_id_0" "UInt32",
      NewColumnWithGroupBy "service_id_1" "UInt32"] else [])

def colsServerPort (code : Code) : List Column :=
  (if code &&& ServerPort ≠ 0 then [NewColumnWithGroupBy "server_port" "UInt16"] else [])

def colsSubnetID (code : Code) : List Column :=
  (if code &&& SubnetID ≠ 0 then [NewColumnWithGroupBy "subnet_id" "UInt16"] else [])

def colsSubnetIDPath (code : Code) : List Column :=
  (if code &&& SubnetIDPath ≠ 0 then
    [NewColumnWithGroupBy "subnet_id_0" "UInt16",
      NewColumnWithGroupBy "subnet_id_1" "UInt16"] else [])

def colsTunnelIPID (code : Code) : List Column :=
  (if code &&& TunnelIPID ≠ 0 then
    [NewColumnWithGroupBy "tunnel_ip_id" "UInt16"] else [])

def colsTAPPort (code : Code) : List Column :=
  (if code &&& TAPPort ≠ 0 then
    [NewColumnWithGroupBy "capture_nic_type" "UInt8",
      NewColumnWithGroupBy "tunnel_type" "UInt8",
      NewColumnWithGroupBy "capture_nic" "UInt32",
      NewColumnWithGroupBy "nat_source" "UInt8"] else [])

def colsTAPSide (code : Code) : List Column :=
  (if code &&& TAPSide ≠ 0 then
    [NewColumnWithGroupBy "observation_point" "LowCardinalityString"] else [])

def colsTAPType (code : Code) : List Column :=
  (if code &&& TAPType ≠ 0 then
    [NewColumnWithGroupBy "capture_network_type_id" "UInt8"] else [])

def colsVTAPID (code : Code) : List Column :=
  (if code &&& VTAPID ≠ 0 then
    [NewColumnWithGroupBy "agent_id" "UInt16",
      NewColumnWithGroupBy "team_id" "UInt16"] else [])

/-- `GenTagColumns(code)`: the unconditional `time` and `_tid` columns,
then one gated group per Code bit, in source order.  Note that the
source tests `ServiceID`/`ServiceIDPath` before `ServerPort` here,
whereas `MarshalTo` emits `server_port` before `service_id`. -/
def GenTagColumns (code : Code) : List Column :=
  NewColumnWithGroupBy "time" "DateTime" :: NewColumn "_tid" "UInt8" ::
  List.flatten [
    colsACLGID code, colsAZID code, colsAZIDPath code, colsDirection code,
    colsGPID code, colsGPIDPath code, colsHostID code, colsHostIDPath code,
    colsIP code, colsIPPath code, colsIsKeyService code, colsL3Device code,
    colsL3DevicePath code, colsL3EpcID code, colsL3EpcIDPath code, colsL7Protocol code,
    colsMAC code, colsMACPath code, colsPodClusterID code, colsPodClusterIDPath code,
    colsPodGroupID code, colsPodGroupIDPath code, colsPodID code, colsPodIDPath code,
    colsPodNodeID code, colsPodNodeIDPath code, colsPodNSID code, colsPodNSIDPath code,
    colsProtocol code, colsRegionID code, colsRegionIDPath code, colsResource code,
    colsResourcePath code, colsSignalSource code, colsServiceID code,
    colsServiceIDPath code, colsServerPort code, colsSubnetID code,
    colsSubnetIDPath code, colsTunnelIPID code, colsTAPPort code, colsTAPSide code,
    colsTAPType code, colsVTAPID code]

/-! ## Table enumeration and table-identity lookup -/

/-- `BaseCode` (tag.go): the one-sided base dimensions. -/
def BaseCode : Code :=
  AZID ||| HostID ||| IP ||| L3Device ||| L3EpcID ||| PodClusterID ||| PodGroupID
  ||| PodID ||| PodNodeID ||| PodNSID ||| RegionID ||| SubnetID ||| TAPType
  ||| VTAPID ||| ServiceID ||| Resource ||| GPID ||| SignalSource

/-- `BasePathCode` (tag.go): the two-sided base dimensions. -/
def BasePathCode : Code :=
  AZIDPath ||| HostIDPath ||| IPPath ||| L3DevicePath ||| L3EpcIDPath
  ||| PodClusterIDPath ||| PodGroupIDPath ||| PodIDPath ||| PodNodeIDPath
  ||| PodNSIDPath ||| RegionIDPath ||| SubnetIDPath ||| TAPSide ||| TAPType
  ||| VTAPID ||| ServiceIDPath ||| ResourcePath ||| GPIDPath ||| SignalSource

/-- `BasePortCode` (tag.go). -/
def BasePortCode : Code := Protocol ||| ServerPort ||| IsKeyService

def NETWORK : Code := BaseCode ||| BasePortCode ||| Direction
def NETWORK_MAP : Code := BasePathCode ||| BasePortCode ||| TAPPort
def APPLICATION : Code := BaseCode ||| BasePortCode ||| Direction ||| L7Protocol
def APPLICATION_MAP : Code := BasePathCode ||| BasePortCode ||| TAPPort ||| L7Protocol
def TRAFFIC_POLICY : Code := ACLGID ||| TunnelIPID ||| VTAPID

/-- MetricsTableID values (the iota enumeration). -/
def NETWORK_1M : Nat := 0
def NETWORK_MAP_1M : Nat := 1
def APPLICATION_1M : Nat := 2
def APPLICATION_MAP_1M : Nat := 3
def TRAFFIC_POLICY_1M : Nat := 4
def NETWORK_1S : Nat := 5
def NETWORK_MAP_1S : Nat := 6
def APPLICATION_1S : Nat := 7
def APPLICATION_MAP_1S : Nat := 8
def METRICS_TABLE_ID_MAX : Nat := 9

/-- `metricsTableNames` (tag.go), indexed by MetricsTableID. -/
def metricsTableNames : List String :=
  ["network.1m", "network_map.1m", "application.1m", "application_map.1m",
    "traffic_policy.1m",
    "network.1s", "network_map.1s", "application.1s", "application_map.1s"]

/-- `(MetricsTableID).TableName()`: a direct slice index in Go, which
panics out of bounds; `none` models the panic. -/
def TableName (i : Nat) : Option String := metricsTableNames[i]?

/-- The linear search of `MetricsTableNameToID`, with its running index. -/
def metricsTableNameToIDAux : Nat → List String → String → Nat
  | _, [], _ => METRICS_TABLE_ID_MAX
  | i, n :: rest, name =>
    if n = name then i else metricsTableNameToIDAux (i + 1) rest name

/-- `MetricsTableNameToID(name)`: the first matching index, or the
sentinel `METRICS_TABLE_ID_MAX` when the name is not in the list. -/
def MetricsTableNameToID (name : String) : Nat :=
  metricsTableNameToIDAux 0 metricsTableNames name

/-- `metricsTableCodes` (tag.go), indexed by MetricsTableID; the
second-resolution entries repeat the minute-resolution codes. -/
def metricsTableCodes : List Code :=
  [NETWORK, NETWORK_MAP, APPLICATION, APPLICATION_MAP, TRAFFIC_POLICY,
    NETWORK, NETWORK_MAP, APPLICATION, APPLICATION_MAP]

/-- Go `x &^ y` on `uint64`: clear in `x` the bits set in `y`. -/
def andNot (x y : Nat) : Nat := x &&& ((2 ^ 64 - 1) ^^^ y)

/-- The error text of `TableID` (`fmt.Errorf` with `%x` and `%v`). -/
def tableIDErr (c : Code) (isSecond : Bool) : String :=
  "not match table, tag code is 0x" ++ String.mk (natToHex c)
    ++ " is second " ++ (if isSecond then "true" else "false")

/-- The range loop of `TableID` with its running index: first matching
entry wins; an exhausted list yields `(0, error)`. -/
def tableIDAux (c : Code) (isSecond : Bool) : Nat → List Code → Nat × Option String
  | _, [] => (0, some (tableIDErr c isSecond))
  | i, code :: rest =>
    if c = code then ((if isSecond then i + NETWORK_1S else i), none)
    else tableIDAux c isSecond (i + 1) rest

/-- `(*Tag).TableID(isSecond)`: compares the Code, with the MAC and
MACPath bits cleared, against `metricsTableCodes`; returns the matching
identifier (offset by `NETWORK_1S` when `isSecond`) or `(0, error)`.
Total, so it never panics. -/
def TableID (t : Tag) (isSecond : Bool) : Nat × Option String :=
  tableIDAux (andNot (andNot t.code MAC) MACPath) isSecond 0 metricsTableCodes

/-! ## Sentinel-ID codec (marshalUint16WithSpecialID and its inverse) -/

def ID_OTHER : Int := -1
def ID_INTERNET : Int := -2

/-- Go `int16(i)` for `i : int64`: two's-complement wraparound into
`[-32768, 32768)`. -/
def int16ofInt (i : Int) : Int := (i + 32768) % 65536 - 32768

/-- Go `uint16(i)` for `i : int64`: truncation to 16 bits. -/
def uint16ofInt (i : Int) : Nat := (i % 65536).toNat

/-- `marshalUint16WithSpecialID(v)`: the sentinels -1 and -2 keep their
signed decimal form; every other value is printed as
`uint64(v) & math.MaxUint16`, i.e. as `v mod 2^16`. -/
def marshalUint16WithSpecialID (v : Int) : String :=
  if v = ID_OTHER ∨ v = ID_INTERNET then decI v
  else decU (v % 65536).toNat

/-- `unmarshalUint16WithSpecialID(s)`: `strconv.ParseInt` then `int16(i)`;
`none` models the error return (Go also yields -1 next to the error). -/
def unmarshalUint16WithSpecialID (s : String) : Option Int :=
  (goParseInt64 s).map int16ofInt

/-! ## Pipe-delimited uint16 list codec -/

/-- The builder loop of `marshalUint16s`: decimal values joined by `|`
(a separator after every element except the last). -/
def marshalUint16sL : List Nat → List Char
  | [] => []
  | [v] => natToDec v
  | v :: vs => natToDec v ++ '|' :: marshalUint16sL vs

/-- `marshalUint16s(vs)`. -/
def marshalUint16s (vs : List Nat) : String := String.mk (marshalUint16sL vs)

/-- Go `strings.Split` with a single-character separator: always yields
at least one (possibly empty) token. -/
def splitChar (sep : Char) : List Char → List (List Char)
  | [] => [[]]
  | c :: cs =>
    match splitChar sep cs with
    | [] => [[]]
    | t :: ts => if c = sep then [] :: t :: ts else (c :: t) :: ts

/-- The parse loop of `unmarshalUint16s` over the split tokens: stops at
the first `ParseInt` failure, returning the prefix parsed so far and the
error flag. -/
def parseUint16Loop : List (List Char) → List Nat × Bool
  | [] => ([], false)
  | tok :: rest =>
    match goParseInt64L tok with
    | none => ([], true)
    | some i =>
      let r := parseUint16Loop rest
      (uint16ofInt i :: r.1, r.2)

/-- `unmarshalUint16s(s)`: split on `|`, parse every token; the Bool is
the error return (`true` = a parse error was propagated). -/
def unmarshalUint16s (s : String) : List Nat × Bool :=
  parseUint16Loop (splitChar '|' s.data)

/-! ## The observation-point token table -/

/-- `TAPSideEnumsString` (tag.go): a sparse Go slice literal whose
length is 51 (the highest index, `ServerApp = 50`, plus one); the gaps
are empty strings. -/
def TAPSideEnumsString : List String :=
  ["rest", "c", "s", "", "local", "", "", "", "", "c-nd", "s-nd",
    "", "", "", "", "", "", "c-hv", "s-hv", "", "", "", "", "", "",
    "c-gw-hv", "s-gw-hv", "", "", "", "", "", "", "c-gw", "s-gw",
    "", "", "", "", "", "", "c-p", "s-p", "", "", "", "", "",
    "app", "c-app", "s-app"]

/-- `(TAPSideEnum).String()`: `TAPSideEnumsString[s]`, an unchecked Go
slice index; `none` models the index-out-of-range panic. -/
def TAPSideString (s : Nat) : Option String := TAPSideEnumsString[s]?

/-- The observation-point lookup `ReadFromPB` performs on an inbound
record: `TAPSideEnum(p.Field.TapSide).String()`, where the cast to the
`uint8`-based enum truncates the raw protobuf value to a byte. -/
def readTAPSideStr (rawTapSide : Nat) : Option String :=
  TAPSideString (rawTapSide % 256)

/-! ## Clone operations over an explicit heap

Go slices alias a backing array; to express the independence (or
sharing) of the IPv6 buffers after a clone, `CloneField`/`CloneTag` are
modelled over an explicit heap of byte buffers: a `CField` stores
buffer locations (`FieldG Nat`) and the heap maps locations to
contents. -/

abbrev Heap := List (List Nat)

/-- A `Field` whose `IP6`/`IP61` are locations in a heap. -/
abbrev CField := FieldG Nat

/-- A `Tag` over heap-allocated buffers. -/
structure CTag where
  field : CField
  code : Code := 0
  id : String := ""
  deriving Repr, DecidableEq

/-- Read the buffer at location `l`. -/
def readBuf (h : Heap) (l : Nat) : List Nat := h.getD l []

/-- Mutate one byte of the buffer at location `l`. -/
def writeBuf (h : Heap) (l idx v : Nat) : Heap :=
  h.set l ((h.getD l []).set idx v)

/-- `CloneField(field)`: `*newField = *field` copies every field
(including the buffer locations), then a non-nil `IP6`/`IP61` is
replaced by a freshly allocated copy of its contents.  Returns the
clone and the grown heap. -/
def CloneField (h : Heap) (f : CField) : CField × Heap :=
  let g0 := f
  let r1 : CField × Heap :=
    match f.IP6 with
    | some l => ({ g0 with IP6 := some h.length }, h ++ [readBuf h l])
    | none => (g0, h)
  let r2 : CField × Heap :=
    match f.IP61 with
    | some l => ({ r1.1 with IP61 := some r1.2.length }, r1.2 ++ [readBuf h l])
    | none => r1
  r2

/-- `CloneTag(tag)`: `newTag.Field = tag.Field` copies the Field struct
wholesale - the slice headers too, so the clone shares the IPv6 buffer
locations with the original; Code and id are copied. -/
def CloneTag (t : CTag) : CTag :=
  { field := t.field, code := t.code, id := t.id }

/-! ## Specification of the buffer write

With a buffer large enough for the whole output (the caller contract of
`MarshalTo`), the sequence of `copy` calls leaves the emitted characters
at the write offset and returns their total length. -/

theorem goCopy_spec (b : List Char) (off : Nat) (s : List Char)
    (h : off + s.length ≤ b.length) :
    goCopy b off s = (b.take off ++ s ++ b.drop (off + s.length), s.length) := by
  have hk : min s.length (b.length - off) = s.length := by omega
  rw [goCopy]
  simp only [hk, List.take_length]

theorem segsChars_cons (s : Seg) (segs : List Seg) :
    segsChars (s :: segs) = segChars s ++ segsChars segs := by
  simp [segsChars]

theorem emitSegs_spec (segs : List Seg) : ∀ (b : List Char) (off : Nat),
    off + (segsChars segs).length ≤ b.length →
    emitSegs b off segs
      = (b.take off ++ (segsChars segs ++ b.drop (off + (segsChars segs).length)),
        off + (segsChars segs).length) := by
  induction segs with
  | nil =>
    intro b off h
    simp only [segsChars, List.map_nil, List.flatten_nil, List.length_nil,
      Nat.add_zero] at h ⊢
    rw [emitSegs, List.nil_append, List.take_append_drop]
  | cons s segs ih =>
    intro b off h
    rw [segsChars_cons] at h ⊢
    rw [emitSegs]
    have hw : off + (segChars s).length ≤ b.length := by
      rw [List.length_append] at h; omega
    rw [goCopy_spec b off (segChars s) hw]
    have hpre : (b.take off ++ segChars s).length = off + (segChars s).length := by
      simp only [List.length_append, List.length_take]
      omega
    have h2 : (off + (segChars s).length) + (segsChars segs).length
        ≤ ((b.take off ++ segChars s) ++ b.drop (off + (segChars s).length)).length := by
      simp only [List.length_append, List.length_take, List.length_drop] at h ⊢
      omega
    have hstep := ih ((b.take off ++ segChars s) ++ b.drop (off + (segChars s).length))
      (off + (segChars s).length) h2
    have hb1 : b.take off ++ segChars s ++ b.drop (off + (segChars s).length)
        = (b.take off ++ segChars s) ++ b.drop (off + (segChars s).length) := by
      rw [List.append_assoc]
    have edrop : ((b.take off ++ segChars s) ++ b.drop (off + (segChars s).length)).drop
        ((off + (segChars s).length) + (segsChars segs).length)
        = b.drop (off + ((segChars s).length + (segsChars segs).length)) := by
      rw [← List.drop_drop, List.drop_left' hpre, List.drop_drop]
      congr 1
      omega
    rw [hb1, hstep, List.take_left' hpre, edrop, List.length_append]
    simp [List.append_assoc, Nat.add_assoc]

/-- `MarshalTo` with a large enough buffer: the returned count is the
length of the emitted characters, and the buffer now starts with exactly
those characters, the rest untouched. -/
theorem MarshalTo_spec (t : Tag) (b : List Char)
    (h : (marshalChars t).length ≤ b.length) :
    MarshalTo t b
      = (marshalChars t ++ b.drop (marshalChars t).length,
        (marshalChars t).length) := by
  have := emitSegs_spec (marshalSegments t) b 0 (by simpa using h)
  rw [MarshalTo, this]
  simp [marshalChars]

/-- The fixed global key order of the encoder: one sublist per
`MarshalTo` group, in the source emission order (the `IPPath` group
lists the keys of both its branches).  Every emitted key sequence is a
sublist of this list; the order is NOT lexicographic (`role` precedes
`gprocess_id`, `signal_source` precedes `server_port`). -/
def masterKeys : List String :=
  ["_tid"] ++ (["acl_gid"] ++ (["az_id"] ++ (["az_id_0", "az_id_1"] ++ (["role"] ++ (["gprocess_id"] ++ (["gprocess_id_0", "gprocess_id_1"] ++ (["host_id"] ++ (["host_id_0", "host_id_1"] ++ (["ip", "ip_version"] ++ (["ip_0", "ip_1", "is_version", "ip_version"] ++ (["is_key_service"] ++ (["l3_device_id", "l3_device_type"] ++ (["l3_device_id_0", "l3_device_id_1", "l3_device_type_0", "l3_device_type_1"] ++ (["l3_epc_id"] ++ (["l3_epc_id_0", "l3_epc_id_1"] ++ (["l7_protocol", "app_service", "app_instance", "endpoint", "biz_type"] ++ ([] ++ ([] ++ (["pod_cluster_id"] ++ (["pod_cluster_id_0", "pod_cluster_id_1"] ++ (["pod_group_id"] ++ (["pod_group_id_0", "pod_group_id_1"] ++ (["pod_id"] ++ (["pod_id_0", "pod_id_1"] ++ (["pod_node_id"] ++ (["pod_node_id_0", "pod_node_id_1"] ++ (["pod_ns_id"] ++ (["pod_ns_id_0", "pod_ns_id_1"] ++ (["protocol"] ++ (["region_id"] ++ (["region_id_0", "region_id_1"] ++ (["auto_instance_id", "auto_instance_type", "auto_service_id", "auto_service_type"] ++ (["auto_instance_id_0", "auto_instance_type_0", "auto_service_id_0", "auto_service_type_0", "auto_instance_id_1", "auto_instance_type_1", "auto_service_id_1", "auto_service_type_1"] ++ (["signal_source"] ++ (["server_port"] ++ (["service_id"] ++ (["service_id_0", "service_id_1"] ++ (["subnet_id"] ++ (["subnet_id_0", "subnet_id_1"] ++ (["tunnel_ip_id"] ++ (["capture_nic"] ++ (["observation_point"] ++ (["capture_network_type_id"] ++ (["agent_id", "team_id"]))))))))))))))))))))))))))))))))))))))))))))

/-- Case split on an `ite` under `map Prod.fst`, without evaluating the
condition. -/
theorem ite_map_fst_sublist (c : Prop) [Decidable c] (l1 l2 : List Seg)
    (kl : List String) (h1 : (l1.map Prod.fst).Sublist kl)
    (h2 : (l2.map Prod.fst).Sublist kl) :
    ((if c then l1 else l2).map Prod.fst).Sublist kl := by
  by_cases hc : c
  · rw [if_pos hc]; exact h1
  · rw [if_neg hc]; exact h2

/-- Every key sequence the encoder emits is a sublist of the one fixed
master key list, for every tag. -/
theorem segKeys_sublist_masterKeys (t : Tag) : (segKeys t).Sublist masterKeys := by
  rw [segKeys, marshalSegments, masterKeys]
  simp only [List.flatten_cons, List.flatten_nil, List.map_append,
    List.append_nil, List.map_nil]
  repeat' apply List.Sublist.append
  all_goals simp only [segsTid, segsACLGID, segsAZID, segsAZIDPath, segsDirection, segsGPID, segsGPIDPath, segsHostID, segsHostIDPath, segsIP, segsIPPath, segsIsKeyService, segsL3Device, segsL3DevicePath, segsL3EpcID, segsL3EpcIDPath, segsL7Protocol, segsMAC, segsMACPath, segsPodClusterID, segsPodClusterIDPath, segsPodGroupID, segsPodGroupIDPath, segsPodID, segsPodIDPath, segsPodNodeID, segsPodNodeIDPath, segsPodNSID, segsPodNSIDPath, segsProtocol, segsRegionID, segsRegionIDPath, segsResource, segsResourcePath, segsSignalSource, segsServerPort, segsServiceID, segsServiceIDPath, segsSubnetID, segsSubnetIDPath, segsTunnelIPID, segsTAPPort, segsTAPSide, segsTAPType, segsVTAPID]
  all_goals repeat' apply ite_map_fst_sublist
  all_goals (first
    | exact List.nil_sublist _
    | (simp only [List.map_cons, List.map_nil]; decide))

/-! ## Code-gate lemmas: or-ing a mask that misses a bit leaves its gate
unchanged. -/

theorem gate_or_mask (c M B : Nat) (h : M &&& B = 0) : (c ||| M) &&& B = c &&& B := by
  apply Nat.eq_of_testBit_eq
  intro i
  have hM : (M &&& B).testBit i = false := by rw [h]; exact Nat.zero_testBit i
  rw [Nat.testBit_and] at hM
  rw [Nat.testBit_and, Nat.testBit_and, Nat.testBit_or]
  cases hMi : M.testBit i <;> cases hBi : B.testBit i <;> simp_all

theorem gate_or_macs (c B : Nat) (h1 : MAC &&& B = 0) (h2 : MACPath &&& B = 0) :
    (c ||| MAC ||| MACPath) &&& B = c &&& B := by
  rw [gate_or_mask _ _ _ h2, gate_or_mask _ _ _ h1]

/-- Setting the MAC and MACPath bits changes no emitted segment. -/
theorem marshalSegments_mac_invariant (f : Field) (c : Code) (s : String) :
    marshalSegments { field := f, code := c ||| MAC ||| MACPath, id := s }
      = marshalSegments { field := f, code := c, id := s } := by
  simp only [marshalSegments, segsTid, segsACLGID, segsAZID, segsAZIDPath, segsDirection, segsGPID, segsGPIDPath, segsHostID, segsHostIDPath, segsIP, segsIPPath, segsIsKeyService, segsL3Device, segsL3DevicePath, segsL3EpcID, segsL3EpcIDPath, segsL7Protocol, segsMAC, segsMACPath, segsPodClusterID, segsPodClusterIDPath, segsPodGroupID, segsPodGroupIDPath, segsPodID, segsPodIDPath, segsPodNodeID, segsPodNodeIDPath, segsPodNSID, segsPodNSIDPath, segsProtocol, segsRegionID, segsRegionIDPath, segsResource, segsResourcePath, segsSignalSource, segsServerPort, segsServiceID, segsServiceIDPath, segsSubnetID, segsSubnetIDPath, segsTunnelIPID, segsTAPPort, segsTAPSide, segsTAPType, segsVTAPID]
  simp only [gate_or_macs c ACLGID (by decide) (by decide),
    gate_or_macs c AZID (by decide) (by decide),
    gate_or_macs c AZIDPath (by decide) (by decide),
    gate_or_macs c Direction (by decide) (by decide),
    gate_or_macs c GPID (by decide) (by decide),
    gate_or_macs c GPIDPath (by decide) (by decide),
    gate_or_macs c HostID (by decide) (by decide),
    gate_or_macs c HostIDPath (by decide) (by decide),
    gate_or_macs c IP (by decide) (by decide),
    gate_or_macs c IPPath (by decide) (by decide),
    gate_or_macs c IsKeyService (by decide) (by decide),
    gate_or_macs c L3Device (by decide) (by decide),
    gate_or_macs c L3DevicePath (by decide) (by decide),
    gate_or_macs c L3EpcID (by decide) (by decide),
    gate_or_macs c L3EpcIDPath (by decide) (by decide),
    gate_or_macs c L7Protocol (by decide) (by decide),
    gate_or_macs c PodClusterID (by decide) (by decide),
    gate_or_macs c PodClusterIDPath (by decide) (by decide),
    gate_or_macs c PodGroupID (by decide) (by decide),
    gate_or_macs c PodGroupIDPath (by decide) (by decide),
    gate_or_macs c PodID (by decide) (by decide),
    gate_or_macs c PodIDPath (by decide) (by decide),
    gate_or_macs c PodNodeID (by decide) (by decide),
    gate_or_macs c PodNodeIDPath (by decide) (by decide),
    gate_or_macs c PodNSID (by decide) (by decide),
    gate_or_macs c PodNSIDPath (by decide) (by decide),
    gate_or_macs c Protocol (by decide) (by decide),
    gate_or_macs c RegionID (by decide) (by decide),
    gate_or_macs c RegionIDPath (by decide) (by decide),
    gate_or_macs c Resource (by decide) (by decide),
    gate_or_macs c ResourcePath (by decide) (by decide),
    gate_or_macs c SignalSource (by decide) (by decide),
    gate_or_macs c ServerPort (by decide) (by decide),
    gate_or_macs c ServiceID (by decide) (by decide),
    gate_or_macs c ServiceIDPath (by decide) (by decide),
    gate_or_macs c SubnetID (by decide) (by decide),
    gate_or_macs c SubnetIDPath (by decide) (by decide),
    gate_or_macs c TunnelIPID (by decide) (by decide),
    gate_or_macs c TAPPort (by decide) (by decide),
    gate_or_macs c TAPSide (by decide) (by decide),
    gate_or_macs c TAPType (by decide) (by decide),
    gate_or_macs c VTAPID (by decide) (by decide)]
  simp [ite_self]

/-- Setting the MAC and MACPath bits changes no generated column. -/
theorem GenTagColumns_mac_invariant (c : Code) :
    GenTagColumns (c ||| MAC ||| MACPath) = GenTagColumns c := by
  simp only [GenTagColumns, colsACLGID, colsAZID, colsAZIDPath, colsDirection, colsGPID, colsGPIDPath, colsHostID, colsHostIDPath, colsIP, colsIPPath, colsIsKeyService, colsL3Device, colsL3DevicePath, colsL3EpcID, colsL3EpcIDPath, colsL7Protocol, colsMAC, colsMACPath, colsPodClusterID, colsPodClusterIDPath, colsPodGroupID, colsPodGroupIDPath, colsPodID, colsPodIDPath, colsPodNodeID, colsPodNodeIDPath, colsPodNSID, colsPodNSIDPath, colsProtocol, colsRegionID, colsRegionIDPath, colsResource, colsResourcePath, colsSignalSource, colsServiceID, colsServiceIDPath, colsServerPort, colsSubnetID, colsSubnetIDPath, colsTunnelIPID, colsTAPPort, colsTAPSide, colsTAPType, colsVTAPID]
  simp only [gate_or_macs c ACLGID (by decide) (by decide),
    gate_or_macs c AZID (by decide) (by decide),
    gate_or_macs c AZIDPath (by decide) (by decide),
    gate_or_macs c Direction (by decide) (by decide),
    gate_or_macs c GPID (by decide) (by decide),
    gate_or_macs c GPIDPath (by decide) (by decide),
    gate_or_macs c HostID (by decide) (by decide),
    gate_or_macs c HostIDPath (by decide) (by decide),
    gate_or_macs c IP (by decide) (by decide),
    gate_or_macs c IPPath (by decide) (by decide),
    gate_or_macs c IsKeyService (by decide) (by decide),
    gate_or_macs c L3Device (by decide) (by decide),
    gate_or_macs c L3DevicePath (by decide) (by decide),
    gate_or_macs c L3EpcID (by decide) (by decide),
    gate_or_macs c L3EpcIDPath (by decide) (by decide),
    gate_or_macs c L7Protocol (by decide) (by decide),
    gate_or_macs c PodClusterID (by decide) (by decide),
    gate_or_macs c PodClusterIDPath (by decide) (by decide),
    gate_or_macs c PodGroupID (by decide) (by decide),
    gate_or_macs c PodGroupIDPath (by decide) (by decide),
    gate_or_macs c PodID (by decide) (by decide),
    gate_or_macs c PodIDPath (by decide) (by decide),
    gate_or_macs c PodNodeID (by decide) (by decide),
    gate_or_macs c PodNodeIDPath (by decide) (by decide),
    gate_or_macs c PodNSID (by decide) (by decide),
    gate_or_macs c PodNSIDPath (by decide) (by decide),
    gate_or_macs c Protocol (by decide) (by decide),
    gate_or_macs c RegionID (by decide) (by decide),
    gate_or_macs c RegionIDPath (by decide) (by decide),
    gate_or_macs c Resource (by decide) (by decide),
    gate_or_macs c ResourcePath (by decide) (by decide),
    gate_or_macs c SignalSource (by decide) (by decide),
    gate_or_macs c ServiceID (by decide) (by decide),
    gate_or_macs c ServiceIDPath (by decide) (by decide),
    gate_or_macs c ServerPort (by decide) (by decide),
    gate_or_macs c SubnetID (by decide) (by decide),
    gate_or_macs c SubnetIDPath (by decide) (by decide),
    gate_or_macs c TunnelIPID (by decide) (by decide),
    gate_or_macs c TAPPort (by decide) (by decide),
    gate_or_macs c TAPSide (by decide) (by decide),
    gate_or_macs c TAPType (by decide) (by decide),
    gate_or_macs c VTAPID (by decide) (by decide)]
  simp [ite_self]

/-! ## Lexicographic order on wire key names (the order the spec claims) -/

/-- Byte-wise lexicographic strictly-less on character lists. -/
def lexLtCh : List Char → List Char → Bool
  | [], [] => false
  | [], _ :: _ => true
  | _ :: _, [] => false
  | a :: as, b :: bs =>
    if a.toNat < b.toNat then true
    else if b.toNat < a.toNat then false
    else lexLtCh as bs

/-- Lexicographic strictly-less on strings. -/
def lexLt (a b : String) : Bool := lexLtCh a.data b.data

/-- Successive-pairs check: every key is lexicographically strictly
below the next. -/
def strictAscendingB : List String → Bool
  | [] => true
  | [_] => true
  | a :: b :: rest => lexLt a b && strictAscendingB (b :: rest)

/-- A key sequence is in strict ascending lexicographic order. -/
abbrev strictAscending (ks : List String) : Prop := strictAscendingB ks = true

/-- The all-zero `Field`. -/
def zeroField : Field := {}

/-- A tag with the given code over the all-zero field. -/
def tagOfCode (c : Code) : Tag := { field := zeroField, code := c }

/-! ## Claim C1: output order and returned byte count -/

/-- C1 (counterexample): the claim says the wire key names are emitted
in strict ascending lexicographic order; for the supported table code
`NETWORK` (with a zero field) the emitted keys contain `role` before
`gprocess_id` (and `signal_source` before `server_port`), so the
sequence is not lexicographically ascending. -/
theorem c1_counterexample : ¬ strictAscending (segKeys (tagOfCode NETWORK)) := by
  decide

/-- C1 (amended): for every Tag and every buffer at least as large as
the output, `MarshalTo` returns the number of bytes written and the
buffer starts with exactly the emitted segments; the key names follow
the encoder's one fixed global emission order (`masterKeys`), which is
deterministic for every Code and Field, but is not the lexicographic
order of the wire key names. -/
theorem c1_amended (t : Tag) (b : List Char)
    (h : (marshalChars t).length ≤ b.length) :
    (MarshalTo t b).2 = (marshalChars t).length
    ∧ (MarshalTo t b).1.take ((marshalChars t).length) = marshalChars t
    ∧ (segKeys t).Sublist masterKeys := by
  rw [MarshalTo_spec t b h]
  exact ⟨rfl, List.take_left' rfl, segKeys_sublist_masterKeys t⟩

/-- C1 (witness): the amended claim at the concrete tag with only the
ACLGID bit and a 16-character buffer. -/
theorem c1_amended_witness :
    ((marshalChars (tagOfCode ACLGID)).length ≤ (List.replicate 16 ' ').length)
    ∧ ((MarshalTo (tagOfCode ACLGID) (List.replicate 16 ' ')).2
        = (marshalChars (tagOfCode ACLGID)).length
      ∧ (MarshalTo (tagOfCode ACLGID) (List.replicate 16 ' ')).1.take
          ((marshalChars (tagOfCode ACLGID)).length)
          = marshalChars (tagOfCode ACLGID)
      ∧ (segKeys (tagOfCode ACLGID)).Sublist masterKeys) :=
  ⟨by decide, c1_amended (tagOfCode ACLGID) (List.replicate 16 ' ') (by decide)⟩

/-! ## Claim C6: the worked example -/

/-- The tag of the spec's worked example: IsIPv4 = 1, IP = big-endian
192.0.2.1, ServerPort = 8080, Code = IP | ServerPort. -/
def c6Tag : Tag :=
  { field := { GlobalThreadID := 0, IsIPv4 := 1, IP := 0xC0000201, ServerPort := 8080 },
    code := IP ||| ServerPort }

/-- C6: `MarshalTo` on the worked-example tag writes exactly
`,ip=192.0.2.1,ip_version=4,server_port=8080` (43 bytes) into any
sufficiently large buffer and returns 43. -/
theorem c6_worked_example (b : List Char) (h : 43 ≤ b.length) :
    (MarshalTo c6Tag b).2 = 43
    ∧ (MarshalTo c6Tag b).1.take 43
        = ",ip=192.0.2.1,ip_version=4,server_port=8080".data := by
  have hc : marshalChars c6Tag
      = ",ip=192.0.2.1,ip_version=4,server_port=8080".data := by decide
  have hl : (marshalChars c6Tag).length = 43 := by rw [hc]; decide
  rw [MarshalTo_spec c6Tag b (by rw [hl]; exact h)]
  simp only [hc, hl]
  exact ⟨rfl, List.take_left' (by decide)⟩

/-- C6 (witness): the worked example on a concrete 64-character buffer. -/
theorem c6_worked_example_witness :
    (43 ≤ (List.replicate 64 ' ').length)
    ∧ ((MarshalTo c6Tag (List.replicate 64 ' ')).2 = 43
      ∧ (MarshalTo c6Tag (List.replicate 64 ' ')).1.take 43
          = ",ip=192.0.2.1,ip_version=4,server_port=8080".data) :=
  ⟨by decide, c6_worked_example (List.replicate 64 ' ') (by decide)⟩

/-! ## Claim C7: the MAC/MACPath bits never change any output -/

/-- C7: for every Field, Code, id and buffer, `MarshalTo` produces the
same buffer contents and the same returned count with
`code | MAC | MACPath` as with `code`, and `GenTagColumns` produces the
same column list. -/
theorem c7_mac_bits_no_output (f : Field) (c : Code) (s : String) (b : List Char) :
    MarshalTo { field := f, code := c ||| MAC ||| MACPath, id := s } b
      = MarshalTo { field := f, code := c, id := s } b
    ∧ GenTagColumns (c ||| MAC ||| MACPath) = GenTagColumns c := by
  refine ⟨?_, GenTagColumns_mac_invariant c⟩
  rw [MarshalTo, MarshalTo, marshalSegments_mac_invariant]

/-! ## Claim C2: presence parity between encoder and schema generator

The per-bit analysis views both consumers through the same lens: which
gate bits of a Code contribute output, and what each bit contributes.
`marshalGateOrder`/`columnGateOrder` list the gate constants in the
order their `if` tests appear in the respective source bodies (they
differ: `MarshalTo` tests ServerPort before ServiceID, `GenTagColumns`
tests ServiceID/ServiceIDPath before ServerPort). -/

/-- The Code bits in the order `MarshalTo` tests them. -/
def marshalGateOrder : List Code :=
  [ACLGID, AZID, AZIDPath, Direction, GPID, GPIDPath, HostID, HostIDPath,
    IP, IPPath, IsKeyService, L3Device, L3DevicePath, L3EpcID, L3EpcIDPath,
    L7Protocol, MAC, MACPath, PodClusterID, PodClusterIDPath, PodGroupID,
    PodGroupIDPath, PodID, PodIDPath, PodNodeID, PodNodeIDPath, PodNSID,
    PodNSIDPath, Protocol, RegionID, RegionIDPath, Resource, ResourcePath,
    SignalSource, ServerPort, ServiceID, ServiceIDPath, SubnetID,
    SubnetIDPath, TunnelIPID, TAPPort, TAPSide, TAPType, VTAPID]

/-- The Code bits in the order `GenTagColumns` tests them. -/
def columnGateOrder : List Code :=
  [ACLGID, AZID, AZIDPath, Direction, GPID, GPIDPath, HostID, HostIDPath,
    IP, IPPath, IsKeyService, L3Device, L3DevicePath, L3EpcID, L3EpcIDPath,
    L7Protocol, MAC, MACPath, PodClusterID, PodClusterIDPath, PodGroupID,
    PodGroupIDPath, PodID, PodIDPath, PodNodeID, PodNodeIDPath, PodNSID,
    PodNSIDPath, Protocol, RegionID, RegionIDPath, Resource, ResourcePath,
    SignalSource, ServiceID, ServiceIDPath, ServerPort, SubnetID,
    SubnetIDPath, TunnelIPID, TAPPort, TAPSide, TAPType, VTAPID]

/-- The keys `MarshalTo` emits for a single gate bit on a zero field. -/
def bitKeys (B : Code) : List String := segKeys (tagOfCode B)

/-- The column names a single gate bit generates (beyond the two
unconditional `time`/`_tid` columns). -/
def bitColNames (B : Code) : List String :=
  ((GenTagColumns B).map Column.name).drop 2

/-- The gate bits of `c` that actually contribute keys, in `MarshalTo`
gate order. -/
def activeMarshalBits (c : Code) : List Code :=
  marshalGateOrder.filter (fun B => decide (c &&& B ≠ 0) && !(bitKeys B).isEmpty)

/-- The gate bits of `c` that actually contribute columns, in
`GenTagColumns` gate order. -/
def activeColumnBits (c : Code) : List Code :=
  columnGateOrder.filter (fun B => decide (c &&& B ≠ 0) && !(bitColNames B).isEmpty)

/-- C2 (counterexample): for the supported `NETWORK` code, the column
list of `GenTagColumns` is not, field for field, the key list
`MarshalTo` emits: the columns start with `time` and `_tid` which are
never wire keys, the IP bit generates `ip4`/`ip6`/`is_ipv4`/`tag_source`
against the keys `ip`/`ip_version`, and `service_id` precedes
`server_port` among the columns while following it among the keys. -/
theorem c2_counterexample :
    (GenTagColumns NETWORK).map Column.name ≠ segKeys (tagOfCode NETWORK) := by
  decide

/-- C2 (amended): for every supported table code, the set of gate bits
with output is the same on both sides (equal as multisets; the order
differs only in the ServerPort vs ServiceID/ServiceIDPath region), and
both outputs decompose bit by bit: the emitted keys are exactly the
concatenation of the per-bit keys in marshal gate order, and the column
names are `time`, `_tid` followed by the concatenation of the per-bit
column names in column gate order.  Presence parity holds at the level
of gate bits, not of names. -/
theorem c2_amended (c : Code) (h : c ∈ metricsTableCodes) :
    (activeMarshalBits c).Perm (activeColumnBits c)
    ∧ segKeys (tagOfCode c) = (activeMarshalBits c).flatMap bitKeys
    ∧ (GenTagColumns c).map Column.name
        = "time" :: "_tid" :: (activeColumnBits c).flatMap bitColNames := by
  revert h
  revert c
  decide

/-- C2 (witness): the amended claim at the `NETWORK` table code. -/
theorem c2_amended_witness :
    NETWORK ∈ metricsTableCodes
    ∧ ((activeMarshalBits NETWORK).Perm (activeColumnBits NETWORK)
      ∧ segKeys (tagOfCode NETWORK) = (activeMarshalBits NETWORK).flatMap bitKeys
      ∧ (GenTagColumns NETWORK).map Column.name
          = "time" :: "_tid" :: (activeColumnBits NETWORK).flatMap bitColNames) :=
  ⟨by decide, c2_amended NETWORK (by decide)⟩

/-! ## Claim C3: the sentinel-ID codec round trip -/

/-- C3: for every signed 16-bit value `v`,
`unmarshalUint16WithSpecialID (marshalUint16WithSpecialID v)` succeeds
and returns `v`: the sentinels -1 and -2 go out as signed decimal (and
parse back to themselves), every other value goes out as its unsigned
16-bit decimal form, and the `int16` conversion after `ParseInt`
recovers the original value. -/
theorem c3_sentinel_roundtrip (v : Int) (h1 : -32768 ≤ v) (h2 : v < 32768) :
    unmarshalUint16WithSpecialID (marshalUint16WithSpecialID v) = some v := by
  by_cases hs : v = ID_OTHER ∨ v = ID_INTERNET
  · rcases hs with rfl | rfl <;> decide
  · rw [marshalUint16WithSpecialID, if_neg hs]
    have hnn : (0 : Int) ≤ v % 65536 := Int.emod_nonneg v (by norm_num)
    have hlt : v % 65536 < 65536 := Int.emod_lt_of_pos v (by norm_num)
    have hcast : (((v % 65536).toNat : Int)) = v % 65536 := Int.toNat_of_nonneg hnn
    have hn63 : (v % 65536).toNat < 2 ^ 63 := by omega
    rw [unmarshalUint16WithSpecialID]
    rw [show decU (v % 65536).toNat = String.mk (natToDec (v % 65536).toNat) from rfl]
    rw [goParseInt64_natToDec _ hn63, Option.map_some']
    have : int16ofInt ((v % 65536).toNat : Int) = v := by
      rw [int16ofInt, hcast]
      omega
    rw [this]

/-- C3 (witness): the round trip at the sentinel -2. -/
theorem c3_sentinel_roundtrip_witness :
    (-32768 ≤ (-2 : Int) ∧ (-2 : Int) < 32768)
    ∧ unmarshalUint16WithSpecialID (marshalUint16WithSpecialID (-2)) = some (-2) :=
  ⟨by decide, c3_sentinel_roundtrip (-2) (by decide) (by decide)⟩

/-! ## Claim C4: table-name round trip and fail-closed name lookup -/

theorem metricsTableNameToIDAux_not_mem (name : String) :
    ∀ (l : List String) (i : Nat), name ∉ l →
      metricsTableNameToIDAux i l name = METRICS_TABLE_ID_MAX := by
  intro l
  induction l with
  | nil => intro i _; rfl
  | cons n rest ih =>
    intro i h
    rw [metricsTableNameToIDAux,
      if_neg (fun hc => h (by rw [hc]; exact List.mem_cons_self _ _))]
    exact ih (i + 1) (fun hm => h (List.mem_cons_of_mem _ hm))

/-- C4: for every table identifier strictly below `METRICS_TABLE_ID_MAX`
the composition `TableName (MetricsTableNameToID (TableName id))`
reproduces `TableName id` (the nine names are distinct, so the index
round-trips), and `MetricsTableNameToID` on any name outside the
table-name list returns the sentinel `METRICS_TABLE_ID_MAX` rather than
erroring; both functions are total, so neither panics. -/
theorem c4_table_name_roundtrip :
    (∀ id : Nat, id < METRICS_TABLE_ID_MAX →
      TableName (MetricsTableNameToID ((TableName id).getD "")) = TableName id)
    ∧ (∀ name : String, name ∉ metricsTableNames →
      MetricsTableNameToID name = METRICS_TABLE_ID_MAX) :=
  ⟨by decide, fun name h => metricsTableNameToIDAux_not_mem name metricsTableNames 0 h⟩

/-- C4 (witness): the round trip at id 3 (`application_map.1m`) and the
sentinel on the unknown name `bogus`. -/
theorem c4_table_name_roundtrip_witness :
    (3 < METRICS_TABLE_ID_MAX
      ∧ TableName (MetricsTableNameToID ((TableName 3).getD "")) = TableName 3)
    ∧ ("bogus" ∉ metricsTableNames
      ∧ MetricsTableNameToID "bogus" = METRICS_TABLE_ID_MAX) :=
  ⟨⟨by decide, c4_table_name_roundtrip.1 3 (by decide)⟩,
    ⟨by decide, c4_table_name_roundtrip.2 "bogus" (by decide)⟩⟩

/-! ## Claim C5: table-identity lookup -/

theorem tableIDAux_mem (c : Code) (s : Bool) :
    ∀ (l : List Code) (i : Nat), c ∈ l →
      tableIDAux c s i l
        = (i + l.indexOf c + (if s then NETWORK_1S else 0), none) := by
  intro l
  induction l with
  | nil => intro i h; exact absurd h (List.not_mem_nil c)
  | cons code rest ih =>
    intro i h
    rw [tableIDAux]
    by_cases hc : c = code
    · rw [if_pos hc, List.indexOf_cons,
        show (code == c) = true from beq_iff_eq.mpr hc.symm]
      cases s <;> simp [NETWORK_1S]
    · rw [if_neg hc, List.indexOf_cons,
        show (code == c) = false from
          beq_eq_false_iff_ne.mpr (fun hcc => hc hcc.symm)]
      have hmem : c ∈ rest := by
        rcases List.mem_cons.mp h with hh | hh
        · exact absurd hh hc
        · exact hh
      rw [ih (i + 1) hmem]
      simp only [cond_false]
      have harith : i + 1 + rest.indexOf c = i + (rest.indexOf c + 1) := by omega
      rw [harith]

theorem tableIDAux_not_mem (c : Code) (s : Bool) :
    ∀ (l : List Code) (i : Nat), c ∉ l →
      tableIDAux c s i l = (0, some (tableIDErr c s)) := by
  intro l
  induction l with
  | nil => intro i _; rfl
  | cons code rest ih =>
    intro i h
    rw [tableIDAux, if_neg (fun hc => h (by rw [hc]; exact List.mem_cons_self _ _))]
    exact ih (i + 1) (fun hm => h (List.mem_cons_of_mem _ hm))

/-- C5: `TableID` masks the MAC and MACPath bits out of the Code and
compares against `metricsTableCodes`: when the masked code is in the
list it returns the first matching index (the minute-resolution table
identifier, the second-resolution entries being duplicates), offset by
`NETWORK_1S` when `isSecond`, with no error; otherwise it returns the
zero identifier together with the descriptive error text.  `TableID` is
total, so it never panics. -/
theorem c5_tableID (t : Tag) (isSecond : Bool) :
    (andNot (andNot t.code MAC) MACPath ∈ metricsTableCodes →
      TableID t isSecond
        = (metricsTableCodes.indexOf (andNot (andNot t.code MAC) MACPath)
            + (if isSecond then NETWORK_1S else 0), none))
    ∧ (andNot (andNot t.code MAC) MACPath ∉ metricsTableCodes →
      TableID t isSecond
        = (0, some (tableIDErr (andNot (andNot t.code MAC) MACPath) isSecond))) := by
  constructor
  · intro h
    rw [TableID, tableIDAux_mem _ _ _ 0 h, Nat.zero_add]
  · intro h
    rw [TableID, tableIDAux_not_mem _ _ _ 0 h]

/-- C5 (witness): a matching code (`NETWORK` with the MAC bit set, in
second resolution) and a non-matching code (0x3039). -/
theorem c5_tableID_witness :
    (andNot (andNot (NETWORK ||| MAC) MAC) MACPath ∈ metricsTableCodes
      ∧ TableID { field := zeroField, code := NETWORK ||| MAC } true
          = (metricsTableCodes.indexOf (andNot (andNot (NETWORK ||| MAC) MAC) MACPath)
              + (if true then NETWORK_1S else 0), none))
    ∧ (andNot (andNot 12345 MAC) MACPath ∉ metricsTableCodes
      ∧ TableID { field := zeroField, code := 12345 } false
          = (0, some (tableIDErr (andNot (andNot 12345 MAC) MACPath) false))) :=
  ⟨⟨by decide, (c5_tableID { field := zeroField, code := NETWORK ||| MAC } true).1 (by decide)⟩,
    ⟨by decide, (c5_tableID { field := zeroField, code := 12345 } false).2 (by decide)⟩⟩

/-! ## Claim C8: the pipe-delimited uint16 list codec -/

theorem natToDec_no_pipe (n : Nat) : '|' ∉ natToDec n := by
  intro hmem
  have hall := List.all_eq_true.mp (natToDec_all_digits n) _ hmem
  exact absurd hall (by decide)

theorem splitChar_ne_nil (sep : Char) (l : List Char) : splitChar sep l ≠ [] := by
  cases l with
  | nil => simp [splitChar]
  | cons c cs =>
    rw [splitChar]
    cases h : splitChar sep cs with
    | nil => simp
    | cons t ts => by_cases hc : c = sep <;> simp [hc]

theorem splitChar_no_sep (sep : Char) :
    ∀ (l : List Char), sep ∉ l → splitChar sep l = [l] := by
  intro l
  induction l with
  | nil => intro _; rfl
  | cons c cs ih =>
    intro h
    have hc : ¬ c = sep := fun hcc => h (hcc ▸ List.mem_cons_self _ _)
    have hcs : sep ∉ cs := fun hm => h (List.mem_cons_of_mem _ hm)
    simp only [splitChar, ih hcs, if_neg hc]

theorem splitChar_sep_append (sep : Char) :
    ∀ (l1 l2 : List Char), sep ∉ l1 →
      splitChar sep (l1 ++ sep :: l2) = l1 :: splitChar sep l2 := by
  intro l1
  induction l1 with
  | nil =>
    intro l2 _
    simp only [List.nil_append, splitChar]
    cases h : splitChar sep l2 with
    | nil => exact absurd h (splitChar_ne_nil sep l2)
    | cons t ts => simp [h]
  | cons c cs ih =>
    intro l2 h
    have hc : ¬ c = sep := fun hcc => h (hcc ▸ List.mem_cons_self _ _)
    have hcs : sep ∉ cs := fun hm => h (List.mem_cons_of_mem _ hm)
    simp only [List.cons_append, splitChar, List.append_eq, ih l2 hcs, if_neg hc]

theorem marshalUint16sL_split (vs : List Nat) (hne : vs ≠ []) :
    splitChar '|' (marshalUint16sL vs) = vs.map natToDec := by
  induction vs with
  | nil => exact absurd rfl hne
  | cons v vs ih =>
    cases vs with
    | nil =>
      show splitChar '|' (natToDec v) = [natToDec v]
      exact splitChar_no_sep '|' _ (natToDec_no_pipe v)
    | cons v2 vs2 =>
      show splitChar '|' (natToDec v ++ '|' :: marshalUint16sL (v2 :: vs2)) = _
      rw [splitChar_sep_append '|' _ _ (natToDec_no_pipe v), ih (by simp)]
      rfl

theorem uint16ofInt_of_lt (v : Nat) (hv : v < 65536) : uint16ofInt (v : Int) = v := by
  rw [uint16ofInt]
  omega

theorem parseUint16Loop_map (vs : List Nat) (hb : ∀ v ∈ vs, v < 65536) :
    parseUint16Loop (vs.map natToDec) = (vs, false) := by
  induction vs with
  | nil => rfl
  | cons v vs ih =>
    have hv : v < 65536 := hb v (List.mem_cons_self _ _)
    have hp : goParseInt64L (natToDec v) = some (v : Int) :=
      goParseInt64_natToDec v (by omega)
    rw [List.map_cons]
    simp only [parseUint16Loop, hp, ih (fun w hw => hb w (List.mem_cons_of_mem _ hw)),
      uint16ofInt_of_lt v hv]

theorem parseUint16Loop_err :
    ∀ ts : List (List Char), (∃ t ∈ ts, goParseInt64L t = none) →
      (parseUint16Loop ts).2 = true := by
  intro ts
  induction ts with
  | nil => rintro ⟨t, hmem, _⟩; exact absurd hmem (List.not_mem_nil t)
  | cons t ts ih =>
    rintro ⟨tok, hmem, htok⟩
    rcases List.mem_cons.mp hmem with rfl | hmem2
    · simp only [parseUint16Loop, htok]
    · cases hpt : goParseInt64L t with
      | none => simp only [parseUint16Loop, hpt]
      | some iv =>
        simp only [parseUint16Loop, hpt]
        exact ih ⟨tok, hmem2, htok⟩

/-- C8 (counterexample): the empty list breaks the round trip.
`marshalUint16s []` is the empty string, `strings.Split` yields one
empty token, and `ParseInt` rejects it, so `unmarshalUint16s` returns an
error instead of the empty list. -/
theorem c8_counterexample : unmarshalUint16s (marshalUint16s []) ≠ ([], false) := by
  decide

/-- C8 (amended): for every NONEMPTY list of unsigned 16-bit values the
pipe-delimited encoding round-trips (`unmarshalUint16s` returns the list
with no error), and any input string with a pipe-separated token that
`ParseInt` rejects makes `unmarshalUint16s` report a parse error.  For
the empty list the round trip fails: the encoding is the empty string,
whose single empty token is a parse error. -/
theorem c8_roundtrip_and_error (vs : List Nat) (s : String)
    (hne : vs ≠ []) (hb : ∀ v ∈ vs, v < 65536)
    (herr : ∃ tok ∈ splitChar '|' s.data, goParseInt64L tok = none) :
    unmarshalUint16s (marshalUint16s vs) = (vs, false)
    ∧ (unmarshalUint16s s).2 = true := by
  constructor
  · show parseUint16Loop (splitChar '|' (marshalUint16sL vs)) = (vs, false)
    rw [marshalUint16sL_split vs hne, parseUint16Loop_map vs hb]
  · exact parseUint16Loop_err _ herr

/-- C8 (witness): the round trip on `[1, 22, 333]` and the error on the
malformed input `7|x|9`. -/
theorem c8_roundtrip_and_error_witness :
    (([1, 22, 333] : List Nat) ≠ []
      ∧ (∀ v ∈ ([1, 22, 333] : List Nat), v < 65536)
      ∧ (∃ tok ∈ splitChar '|' ("7|x|9" : String).data, goParseInt64L tok = none))
    ∧ (unmarshalUint16s (marshalUint16s [1, 22, 333]) = ([1, 22, 333], false)
      ∧ (unmarshalUint16s "7|x|9").2 = true) :=
  ⟨⟨by decide, by decide, by decide⟩,
    c8_roundtrip_and_error [1, 22, 333] "7|x|9" (by decide) (by decide) (by decide)⟩

/-! ## Claim C9: the observation-point token lookup -/

/-- C9 (counterexample): the raw side value 51 is a possible byte (the
protobuf field is truncated to `uint8`), and looking it up runs off the
end of the 51-entry token table: the Go slice index panics, so the
lookup is not in bounds for every inbound record. -/
theorem c9_counterexample :
    51 % 256 = 51 ∧ TAPSideEnumsString.length = 51 ∧ readTAPSideStr 51 = none := by
  decide

/-- C9 (amended): the lookup `ReadFromPB` performs on the raw side byte
is within bounds exactly for bytes below the table length 51 (returning
the table token, the empty string for composite values absent from the
table); for bytes 51-255 the index is out of range and the Go runtime
panics (`none` in the model). -/
theorem c9_amended (raw : Nat) :
    (∀ h : raw % 256 < TAPSideEnumsString.length,
      readTAPSideStr raw = some (TAPSideEnumsString.get ⟨raw % 256, h⟩))
    ∧ (TAPSideEnumsString.length ≤ raw % 256 → readTAPSideStr raw = none) :=
  ⟨fun h => List.getElem?_eq_getElem h, fun h => List.getElem?_eq_none h⟩

/-- C9 (witness): the in-bounds byte 9 (`c-nd`) and the out-of-bounds
byte 51. -/
theorem c9_amended_witness :
    (9 % 256 < TAPSideEnumsString.length ∧ readTAPSideStr 9 = some "c-nd")
    ∧ (TAPSideEnumsString.length ≤ 51 % 256 ∧ readTAPSideStr 51 = none) :=
  ⟨⟨by decide, by rw [(c9_amended 9).1 (by decide)]; decide⟩,
    ⟨by decide, (c9_amended 51).2 (by decide)⟩⟩

/-! ## Claim C10: clone independence -/

/-- C10 (counterexample): `CloneTag` copies the Field struct wholesale,
slice headers included, so the Tag clone cites the same IPv6 buffer
location as the original; mutating a byte through that shared location
changes what the original reads, so the Tag clone does not hold its own
independent buffer copy. -/
theorem c10_counterexample :
    (CloneTag { field := { IP6 := some 0 } }).field.IP6
        = ({ field := { IP6 := some 0 } } : CTag).field.IP6
    ∧ (CloneTag { field := { IP6 := some 0 } }).field.IP6 = some 0
    ∧ readBuf (writeBuf [[1, 2]] 0 0 99) 0 ≠ readBuf [[1, 2]] 0 := by
  refine ⟨rfl, rfl, by decide⟩

theorem readBuf_ext (h ext : Heap) (l0 : Nat) (hl0 : l0 < h.length) :
    readBuf (h ++ ext) l0 = readBuf h l0 := by
  rw [readBuf, readBuf, List.getD_eq_getElem?_getD, List.getD_eq_getElem?_getD,
    List.getElem?_append, if_pos hl0]

theorem readBuf_append_last (h : Heap) (b : List Nat) :
    readBuf (h ++ [b]) h.length = b := by
  rw [readBuf, List.getD_eq_getElem?_getD,
    List.getElem?_append_right (Nat.le_refl _), Nat.sub_self]
  rfl

theorem readBuf_writeBuf_ne (h : Heap) (l l0 idx v : Nat) (hne : l ≠ l0) :
    readBuf (writeBuf h l idx v) l0 = readBuf h l0 := by
  simp only [writeBuf, readBuf, List.getD_eq_getElem?_getD,
    List.getElem?_set_ne hne]

theorem readBuf_ext_write (h ext : Heap) (l2 idx v l0 : Nat)
    (hl0 : l0 < h.length) (hl2 : h.length ≤ l2) :
    readBuf (writeBuf (h ++ ext) l2 idx v) l0 = readBuf h l0 :=
  (readBuf_writeBuf_ne _ _ _ _ _ (by omega)).trans (readBuf_ext h ext l0 hl0)

/-- C10 (amended): `CloneField` produces an independent clone: the clone
is the original with only the two buffer references replaced (every
scalar field copied unchanged), each non-nil IPv6 buffer is copied into
a freshly allocated location (at or beyond the old heap end) holding
the same bytes, the original locations still read their old contents,
and mutating any byte through any fresh location leaves every original
location unchanged.  `CloneTag` does not have this property - see the
counterexample. -/
theorem c10_cloneField_independent (h : Heap) (f : CField)
    (_h6 : ∀ l, f.IP6 = some l → l < h.length)
    (_h61 : ∀ l, f.IP61 = some l → l < h.length) :
    (∃ b6 b61, (CloneField h f).1 = { f with IP6 := b6, IP61 := b61 })
    ∧ (∀ l, f.IP6 = some l → ∃ l2, (CloneField h f).1.IP6 = some l2
        ∧ h.length ≤ l2 ∧ readBuf (CloneField h f).2 l2 = readBuf h l)
    ∧ (∀ l, f.IP61 = some l → ∃ l2, (CloneField h f).1.IP61 = some l2
        ∧ h.length ≤ l2 ∧ readBuf (CloneField h f).2 l2 = readBuf h l)
    ∧ (∀ l0, l0 < h.length → readBuf (CloneField h f).2 l0 = readBuf h l0)
    ∧ (∀ l2, h.length ≤ l2 → ∀ idx v, ∀ l0, l0 < h.length →
        readBuf (writeBuf (CloneField h f).2 l2 idx v) l0 = readBuf h l0) := by
  rcases hf6 : f.IP6 with _ | l6 <;> rcases hf61 : f.IP61 with _ | l61 <;>
    simp only [CloneField, hf6, hf61]
  · -- IP6 = none, IP61 = none: the heap is untouched
    refine ⟨⟨f.IP6, f.IP61, rfl⟩, ?_, ?_, ?_, ?_⟩
    · intro l hl; cases hl
    · intro l hl; cases hl
    · intro l0 _; trivial
    · intro l2 hl2 idx v l0 hl0
      exact readBuf_writeBuf_ne _ _ _ _ _ (by omega)
  · -- IP6 = none, IP61 = some
    refine ⟨⟨none, some h.length, rfl⟩, ?_, ?_, ?_, ?_⟩
    · intro l hl; cases hl
    · intro l hl
      injection hl with hl
      subst hl
      exact ⟨h.length, rfl, Nat.le_refl _, readBuf_append_last h _⟩
    · intro l0 hl0; exact readBuf_ext h _ l0 hl0
    · intro l2 hl2 idx v l0 hl0; exact readBuf_ext_write h _ l2 idx v l0 hl0 hl2
  · -- IP6 = some, IP61 = none
    refine ⟨⟨some h.length, none, rfl⟩, ?_, ?_, ?_, ?_⟩
    · intro l hl
      injection hl with hl
      subst hl
      exact ⟨h.length, rfl, Nat.le_refl _, readBuf_append_last h _⟩
    · intro l hl; cases hl
    · intro l0 hl0; exact readBuf_ext h _ l0 hl0
    · intro l2 hl2 idx v l0 hl0; exact readBuf_ext_write h _ l2 idx v l0 hl0 hl2
  · -- IP6 = some, IP61 = some: two fresh buffers
    have hassoc : ((h ++ [readBuf h l6]) ++ [readBuf h l61] : Heap)
        = h ++ ([readBuf h l6] ++ [readBuf h l61]) := List.append_assoc ..
    refine ⟨⟨some h.length, some (h ++ [readBuf h l6]).length, rfl⟩, ?_, ?_, ?_, ?_⟩
    · intro l hl
      injection hl with hl
      subst hl
      refine ⟨h.length, rfl, Nat.le_refl _, ?_⟩
      rw [readBuf_ext (h ++ [readBuf h l6]) [readBuf h l61] h.length
        (by rw [List.length_append]; simp)]
      exact readBuf_append_last h _
    · intro l hl
      injection hl with hl
      subst hl
      refine ⟨(h ++ [readBuf h l6]).length, rfl, by rw [List.length_append]; omega, ?_⟩
      exact readBuf_append_last (h ++ [readBuf h l6]) _
    · intro l0 hl0
      rw [hassoc]
      exact readBuf_ext h _ l0 hl0
    · intro l2 hl2 idx v l0 hl0
      rw [hassoc]
      exact readBuf_ext_write h _ l2 idx v l0 hl0 hl2

/-- C10 (witness): the clone independence at a concrete heap and field
holding both IPv6 buffers. -/
theorem c10_cloneField_independent_witness :
    ((∀ l, ({ IP6 := some 0, IP61 := some 1 } : CField).IP6 = some l
        → l < ([[1, 2], [3]] : Heap).length)
      ∧ (∀ l, ({ IP6 := some 0, IP61 := some 1 } : CField).IP61 = some l
        → l < ([[1, 2], [3]] : Heap).length))
    ∧ ((∃ b6 b61, (CloneField [[1, 2], [3]] { IP6 := some 0, IP61 := some 1 }).1
          = { ({ IP6 := some 0, IP61 := some 1 } : CField) with IP6 := b6, IP61 := b61 })
      ∧ (∀ l, ({ IP6 := some 0, IP61 := some 1 } : CField).IP6 = some l →
          ∃ l2, (CloneField [[1, 2], [3]] { IP6 := some 0, IP61 := some 1 }).1.IP6 = some l2
            ∧ ([[1, 2], [3]] : Heap).length ≤ l2
            ∧ readBuf (CloneField [[1, 2], [3]] { IP6 := some 0, IP61 := some 1 }).2 l2
                = readBuf [[1, 2], [3]] l)
      ∧ (∀ l, ({ IP6 := some 0, IP61 := some 1 } : CField).IP61 = some l →
          ∃ l2, (CloneField [[1, 2], [3]] { IP6 := some 0, IP61 := some 1 }).1.IP61 = some l2
            ∧ ([[1, 2], [3]] : Heap).length ≤ l2
            ∧ readBuf (CloneField [[1, 2], [3]] { IP6 := some 0, IP61 := some 1 }).2 l2
                = readBuf [[1, 2], [3]] l)
      ∧ (∀ l0, l0 < ([[1, 2], [3]] : Heap).length →
          readBuf (CloneField [[1, 2], [3]] { IP6 := some 0, IP61 := some 1 }).2 l0
            = readBuf [[1, 2], [3]] l0)
      ∧ (∀ l2, ([[1, 2], [3]] : Heap).length ≤ l2 → ∀ idx v, ∀ l0,
          l0 < ([[1, 2], [3]] : Heap).length →
          readBuf (writeBuf (CloneField [[1, 2], [3]] { IP6 := some 0, IP61 := some 1 }).2
              l2 idx v) l0
            = readBuf [[1, 2], [3]] l0)) :=
  ⟨⟨by decide, by decide⟩,
    c10_cloneField_independent [[1, 2], [3]] { IP6 := some 0, IP61 := some 1 }
      (by decide) (by decide)⟩

end FlowMetrics